import Mathlib

set_option maxRecDepth 10000

/-!
Verification development for the MediShift scheduler core.

This file gives a shallow embedding, in Lean 4, of the scheduling and
leave-analysis engine of the medishift-scheduler repository:

* the monthly call scheduler (class `MonthlyCallScheduler`, full
  implementation),
* the duplicated, stubbed `MonthlyCallScheduler` from
  "Monthly Call Scheduler (Backend logic).ts",
* the yearly rotation engine (`YearlyScheduleEngine`),
* the leave-request analyzer (`analyzeLeaveRequest` and its helpers).

Dates are modelled as civil day numbers (days in a proleptic Gregorian
calendar, single time zone, as the spec prescribes); JavaScript `Date`
values in the source are always constructed at local midnight and compared
by day, so civil day arithmetic is the faithful model.  JavaScript numbers
are modelled by `Nat`/`Int`/`Rat` (exact arithmetic).  Console logging,
debug output and the unused metrics computation have no effect on the
functions' results and are omitted.
-/

namespace MediShift

/-! ## Civil-date arithmetic

`civilToDay` and `dayToCivil` convert between a (year, month 1..12, day)
triple and a day count, following the standard civil-from-days algorithm.
They model JavaScript `new Date(y, m, d)` (at midnight) and its accessors.
-/

/-- Day count of a civil date (month is 1-based).  Valid for year ≥ 1. -/
def civilToDay (y m d : Nat) : Nat :=
  let yy := if m ≤ 2 then y - 1 else y
  let era := yy / 400
  let yoe := yy % 400
  let mp := (m + 9) % 12
  let doy := (153 * mp + 2) / 5 + d - 1
  let doe := yoe * 365 + yoe / 4 - yoe / 100 + doy
  era * 146097 + doe

/-- Inverse of `civilToDay`: (year, month 1..12, day 1..31). -/
def dayToCivil (z : Nat) : Nat × Nat × Nat :=
  let era := z / 146097
  let doe := z % 146097
  let yoe := (doe - doe / 1460 + doe / 36524 - doe / 146096) / 365
  let y := yoe + era * 400
  let doy := doe - (365 * yoe + yoe / 4 - yoe / 100)
  let mp := (5 * doy + 2) / 153
  let d := doy - (153 * mp + 2) / 5 + 1
  let m := if mp < 10 then mp + 3 else mp - 9
  (if m ≤ 2 then y + 1 else y, m, d)

/-- Model of JS `new Date(year, month, day)` with 0-based month. -/
def mkDate (year month0 day : Nat) : Nat :=
  civilToDay year (month0 + 1) day

/-- Model of JS `Date.prototype.getDay`: 0 = Sunday, ..., 6 = Saturday. -/
def dayOfWeek (z : Nat) : Nat := (z + 3) % 7

/-- Model of JS `Date.prototype.getMonth` (0-based month). -/
def civilMonth0 (z : Nat) : Nat := (dayToCivil z).2.1 - 1

/-- Model of JS `Date.prototype.getDate` (day of month, 1-based). -/
def civilDayOfMonth (z : Nat) : Nat := (dayToCivil z).2.2

/-- Lower-case English weekday name, as produced by
`toLocaleDateString('en-US', \x7b weekday: 'long' \x7d).toLowerCase()`. -/
def dayName (z : Nat) : String :=
  match dayOfWeek z with
  | 0 => "sunday"
  | 1 => "monday"
  | 2 => "tuesday"
  | 3 => "wednesday"
  | 4 => "thursday"
  | 5 => "friday"
  | _ => "saturday"

def isLeapYear (y : Nat) : Bool :=
  (y % 4 == 0 && y % 100 != 0) || y % 400 == 0

/-- Number of days of a month (0-based month), i.e. JS
`new Date(year, month + 1, 0).getDate()`. -/
def daysInMonth (year month0 : Nat) : Nat :=
  match month0 with
  | 0 => 31
  | 1 => if isLeapYear year then 29 else 28
  | 2 => 31
  | 3 => 30
  | 4 => 31
  | 5 => 30
  | 6 => 31
  | 7 => 31
  | 8 => 30
  | 9 => 31
  | 10 => 30
  | _ => 31

/-- Model of the scheduler's `getDaysBetween`: absolute difference in days
(`Math.floor(Math.abs(d2 - d1) / msPerDay)` on midnight dates). -/
def getDaysBetween (d1 d2 : Nat) : Nat :=
  ((d2 : Int) - (d1 : Int)).natAbs

/-- ASCII lower-casing of a character (model of JS `toLowerCase` on the
ASCII strings handled by the scheduler). -/
def toLowerChar (c : Char) : Char :=
  if 65 ≤ c.toNat ∧ c.toNat ≤ 90 then Char.ofNat (c.toNat + 32) else c

/-- ASCII lower-casing of a string (model of JS
`String.prototype.toLowerCase`; all strings it is applied to are ASCII
weekday names). -/
def toLowerStr (s : String) : String := ⟨s.data.map toLowerChar⟩

/-! ## Stable descending sort

JavaScript `Array.prototype.sort` is stable (ES2019).  All comparators in
the source are of the form `(a, b) => key(b) - key(a)`, i.e. a stable sort
descending by a key.  A stable sort's output is uniquely determined by the
comparator, so a stable insertion sort is a faithful model. -/

def insertDesc {α : Type} (ge : α → α → Bool) (a : α) : List α → List α
  | [] => [a]
  | b :: t => if ge a b then a :: b :: t else b :: insertDesc ge a t

def sortDesc {α : Type} (ge : α → α → Bool) : List α → List α
  | [] => []
  | a :: t => insertDesc ge a (sortDesc ge t)

theorem mem_insertDesc {α : Type} (ge : α → α → Bool) (a x : α) :
    ∀ l : List α, x ∈ insertDesc ge a l ↔ x = a ∨ x ∈ l := by
  intro l
  induction l with
  | nil => simp [insertDesc]
  | cons b t ih =>
    by_cases hge : ge a b = true
    · simp [insertDesc, hge]
    · simp only [insertDesc, if_neg hge, List.mem_cons, ih]
      tauto

theorem mem_sortDesc {α : Type} (ge : α → α → Bool) (x : α) :
    ∀ l : List α, x ∈ sortDesc ge l ↔ x ∈ l := by
  intro l
  induction l with
  | nil => simp [sortDesc]
  | cons a t ih =>
    simp only [sortDesc, mem_insertDesc, List.mem_cons, ih]

theorem insertDesc_ne_nil {α : Type} (ge : α → α → Bool) (a : α) (l : List α) :
    insertDesc ge a l ≠ [] := by
  cases l with
  | nil => simp [insertDesc]
  | cons b t =>
    simp only [insertDesc]
    split <;> simp

theorem sortDesc_eq_nil {α : Type} (ge : α → α → Bool) (l : List α) :
    sortDesc ge l = [] → l = [] := by
  cases l with
  | nil => intro; rfl
  | cons a t =>
    intro h
    exact absurd h (insertDesc_ne_nil ge a (sortDesc ge t))

/-- Head of the stable descending sort: it is a maximal element of the
input, and every input element strictly before it (in input order) is
strictly below it.  `ge` must be total and transitive on the input list. -/
theorem sortDesc_head_first_max {α : Type} (ge : α → α → Bool) :
    ∀ (l : List α),
      (∀ a ∈ l, ∀ b ∈ l, ge a b = true ∨ ge b a = true) →
      (∀ a ∈ l, ∀ b ∈ l, ∀ c ∈ l, ge a b = true → ge b c = true → ge a c = true) →
      ∀ (h : α) (t : List α), sortDesc ge l = h :: t →
      (∀ x ∈ l, ge h x = true) ∧
      ∃ pre post, l = pre ++ h :: post ∧ ∀ x ∈ pre, ge x h = false := by
  intro l
  induction l with
  | nil => intro _ _ h t hs; simp [sortDesc] at hs
  | cons a l2 ih =>
    intro htot htrans h t hs
    have hmem_a : a ∈ a :: l2 := List.mem_cons_self a l2
    have hmem_l2 : ∀ x ∈ l2, x ∈ a :: l2 := fun x hx => List.mem_cons_of_mem a hx
    have htot2 : ∀ x ∈ l2, ∀ y ∈ l2, ge x y = true ∨ ge y x = true :=
      fun x hx y hy => htot x (hmem_l2 x hx) y (hmem_l2 y hy)
    have htrans2 : ∀ x ∈ l2, ∀ y ∈ l2, ∀ z ∈ l2,
        ge x y = true → ge y z = true → ge x z = true :=
      fun x hx y hy z hz => htrans x (hmem_l2 x hx) y (hmem_l2 y hy) z (hmem_l2 z hz)
    simp only [sortDesc] at hs
    cases hsl : sortDesc ge l2 with
    | nil =>
      have hl2 : l2 = [] := sortDesc_eq_nil ge l2 hsl
      subst hl2
      rw [hsl] at hs
      simp only [insertDesc] at hs
      injection hs with ha ht
      subst ha
      constructor
      · intro x hx
        simp only [List.mem_singleton] at hx
        rw [hx]
        rcases htot a hmem_a a hmem_a with hh | hh <;> exact hh
      · exact ⟨[], [], rfl, by simp⟩
    | cons h2 t2 =>
      rw [hsl] at hs
      simp only [insertDesc] at hs
      obtain ⟨hmax2, pre2, post2, hdec2, hpre2⟩ := ih htot2 htrans2 h2 t2 hsl
      have hmem_h2 : h2 ∈ l2 := (mem_sortDesc ge h2 l2).mp (hsl ▸ List.mem_cons_self h2 t2)
      by_cases hge : ge a h2 = true
      · rw [if_pos hge] at hs
        injection hs with ha ht
        subst ha
        constructor
        · intro x hx
          rcases List.mem_cons.mp hx with hx | hx
          · rw [hx]
            rcases htot a hmem_a a hmem_a with hh | hh <;> exact hh
          · exact htrans a hmem_a h2 (hmem_l2 h2 hmem_h2) x (hmem_l2 x hx) hge (hmax2 x hx)
        · exact ⟨[], l2, rfl, by simp⟩
      · rw [if_neg hge] at hs
        injection hs with hh2 ht
        subst hh2
        constructor
        · intro x hx
          rcases List.mem_cons.mp hx with hx | hx
          · rw [hx]
            rcases htot h2 (hmem_l2 h2 hmem_h2) a hmem_a with hh | hh
            · exact hh
            · exact absurd hh hge
          · exact hmax2 x hx
        · refine ⟨a :: pre2, post2, by rw [hdec2, List.cons_append], ?_⟩
          intro x hx
          rcases List.mem_cons.mp hx with hx | hx
          · rw [hx]
            simpa using hge
          · exact hpre2 x hx

/-- Fold invariant preservation. -/
theorem foldl_preserve {σ β : Type} (inv : σ → Prop) (f : σ → β → σ)
    (hstep : ∀ st b, inv st → inv (f st b)) :
    ∀ (l : List β) (st : σ), inv st → inv (l.foldl f st) := by
  intro l
  induction l with
  | nil => intro st h; exact h
  | cons b t ih => intro st h; exact ih (f st b) (hstep st b h)

/-! ## Exact model of JavaScript number arithmetic

The scheduler's scores and the analyzer's ratios are JavaScript numbers.
We model them by exact (unnormalized) rationals `num / den`; comparisons
cross-multiply.  A zero denominator arises exactly where JS produces
`±Infinity` (division by zero), and the cross-multiplied comparisons then
agree with the JS comparisons against infinities in all cases exercised by
the code.  This representation avoids `Rat`'s gcd normalization, keeping
every computation kernel-reducible. -/

structure JsNum where
  num : Int
  den : Nat
deriving DecidableEq, Repr

namespace JsNum

def ofNat (n : Nat) : JsNum := ⟨n, 1⟩

def ofInt (n : Int) : JsNum := ⟨n, 1⟩

def add (x y : JsNum) : JsNum := ⟨x.num * y.den + y.num * x.den, x.den * y.den⟩

def sub (x y : JsNum) : JsNum := ⟨x.num * y.den - y.num * x.den, x.den * y.den⟩

def mul (x y : JsNum) : JsNum := ⟨x.num * y.num, x.den * y.den⟩

def inv (x : JsNum) : JsNum :=
  if 0 ≤ x.num then ⟨(x.den : Int), x.num.natAbs⟩ else ⟨-(x.den : Int), x.num.natAbs⟩

def div (x y : JsNum) : JsNum := mul x (inv y)

/-- Boolean `x ≤ y` by cross multiplication. -/
def ble (x y : JsNum) : Bool := decide (x.num * (y.den : Int) ≤ y.num * (x.den : Int))

/-- Boolean `x < y` by cross multiplication. -/
def blt (x y : JsNum) : Bool := decide (x.num * (y.den : Int) < y.num * (x.den : Int))

/-- Model of JS `Math.max` on two numbers. -/
def jsMax (x y : JsNum) : JsNum := if ble x y then y else x

/-- Model of JS `Math.min` on two numbers. -/
def jsMin (x y : JsNum) : JsNum := if ble x y then x else y

/-- Model of JS `Math.round`: `⌊x + 1/2⌋` (round half towards `+∞`). -/
def round (x : JsNum) : Int := Int.fdiv (2 * x.num + (x.den : Int)) (2 * (x.den : Int))

theorem ble_total (x y : JsNum) : ble x y = true ∨ ble y x = true := by
  simp only [ble, decide_eq_true_eq]
  exact Int.le_total (x.num * (y.den : Int)) (y.num * (x.den : Int))

theorem ble_trans {x y z : JsNum} (hy : 0 < y.den) :
    ble x y = true → ble y z = true → ble x z = true := by
  simp only [ble, decide_eq_true_eq]
  intro h1 h2
  have hz : (0 : Int) ≤ (z.den : Int) := Int.natCast_nonneg z.den
  have hx : (0 : Int) ≤ (x.den : Int) := Int.natCast_nonneg x.den
  have h1z : x.num * (y.den : Int) * (z.den : Int) ≤ y.num * (x.den : Int) * (z.den : Int) :=
    mul_le_mul_of_nonneg_right h1 hz
  have h2x : y.num * (z.den : Int) * (x.den : Int) ≤ z.num * (y.den : Int) * (x.den : Int) :=
    mul_le_mul_of_nonneg_right h2 hx
  have hyc : (0 : Int) < (y.den : Int) := by exact_mod_cast hy
  have hchain : x.num * (z.den : Int) * (y.den : Int) ≤ z.num * (x.den : Int) * (y.den : Int) := by
    calc x.num * (z.den : Int) * (y.den : Int)
        = x.num * (y.den : Int) * (z.den : Int) := by ring
      _ ≤ y.num * (x.den : Int) * (z.den : Int) := h1z
      _ = y.num * (z.den : Int) * (x.den : Int) := by ring
      _ ≤ z.num * (y.den : Int) * (x.den : Int) := h2x
      _ = z.num * (x.den : Int) * (y.den : Int) := by ring
  exact le_of_mul_le_mul_right hchain hyc

end JsNum

/-! ## Data model

Shared types of the repository (`shared/types`), reconstructed from their
use sites and the spec's data-model table.  Timestamp fields are civil day
numbers; fields that are only ever logged (names of rotations, creation
timestamps, audit info) are kept only where some embedded function reads
them. -/

inductive Team
  | red
  | blue
deriving DecidableEq, Repr

inductive RotationType
  | coreNsx
  | mandatoryOffService
  | examLeave
  | holidayLeave
  | flexible
deriving DecidableEq, Repr

inductive CallKind
  | night
  | weekend
  | holiday
  | postCall
  | noCall
deriving DecidableEq, Repr

inductive LeaveStatus
  | pendingAnalysis
  | pendingApproval
  | approved
  | denied
  | flaggedForReview
  | analysisFailed
deriving DecidableEq, Repr

inductive StaffingLevel
  | normal
  | shortage
deriving DecidableEq, Repr

structure Resident where
  id : String
  name : String
  pgyLevel : Nat
  specialty : String
  onService : Bool
  isChief : Bool
  callExempt : Bool
deriving DecidableEq, Repr

structure PARORule where
  minDays : Nat
  maxDays : Nat
  calls : Nat
deriving DecidableEq, Repr

structure MonthlySchedulerConfig where
  paroHardCaps : List PARORule
  callRatios : List (Nat × Nat)
  maxWeekendsPerRotation : Nat
  weekendDefinition : List String
deriving DecidableEq, Repr

structure MandatoryRotationRule where
  blockNumber : Nat
  pgyLevels : List Nat
  rotationName : String
deriving DecidableEq, Repr

structure YearlySchedulerConfig where
  mandatoryRotations : List MandatoryRotationRule
  examLeave : List MandatoryRotationRule
deriving DecidableEq, Repr

structure CoverageRule where
  isEnabled : Bool
  appliesTo : String
  specialty : String
  minPgyLevel : Nat
  minCount : Nat
deriving DecidableEq, Repr

structure LeavePolicy where
  minNoticeDays : Nat
  maxConsecutiveDays : Nat
  annualLimit : Nat
deriving DecidableEq, Repr

structure AppConfiguration where
  monthlySchedulerConfig : MonthlySchedulerConfig
  yearlySchedulerConfig : YearlySchedulerConfig
  coverageRulesRotationBlock : List CoverageRule
  leavePolicy : LeavePolicy
  holidays : List Nat
deriving DecidableEq, Repr

structure RotationAssignment where
  residentId : String
  rotationName : String
  rotationType : RotationType
  team : Option Team
  holidayType : Option String
deriving DecidableEq, Repr

structure RotationBlock where
  blockNumber : Nat
  startDate : Nat
  endDate : Nat
  assignments : List RotationAssignment
deriving DecidableEq, Repr

structure AcademicYear where
  id : String
  blocks : List RotationBlock
deriving DecidableEq, Repr

structure LeaveRequest where
  id : String
  residentId : String
  leaveType : String
  status : LeaveStatus
  startDate : Nat
  endDate : Nat
deriving DecidableEq, Repr

structure CallAssignment where
  id : String
  residentId : String
  residentName : String
  date : Nat
  type : CallKind
  points : Nat
  isHoliday : Bool
  team : Option Team
  status : String
deriving DecidableEq, Repr

structure ExternalRotator where
  id : String
  startDate : Nat
  endDate : Nat
deriving DecidableEq, Repr

/-! ## Monthly Call Scheduler (full implementation)

Embedding of class `MonthlyCallScheduler` (monthly-scheduler.ts).  The
constructor fields become the `Sched` structure; the mutable
`this.callStats` map becomes an explicit association list threaded through
the day loop.  Console logging, `debugMode` output and the final
metrics/summary computation do not influence the returned assignment list
and are omitted. -/

structure CallStats where
  totalCalls : Nat
  weekendCalls : Nat
  holidayCalls : Nat
  nightCalls : Nat
  lastCallDate : Option Nat
  consecutiveDays : Nat
  callDates : List Nat
  points : Nat
deriving DecidableEq, Repr

structure SchedulingScore where
  resident : Resident
  score : JsNum
deriving DecidableEq, Repr

structure DayRequirements where
  date : Nat
  dayOfWeek : Nat
  isWeekend : Bool
  isHoliday : Bool
  callType : CallKind
  requiredCoverage : Nat
  priority : Nat
deriving DecidableEq, Repr

/-- Constructor arguments of `MonthlyCallScheduler` (the `this` object). -/
structure Sched where
  residents : List Resident
  config : AppConfiguration
  academicYear : AcademicYear
  approvedLeave : List LeaveRequest
  month : Nat
  year : Nat
  existingAssignments : List CallAssignment
deriving Repr

/-- One `JS Map<string, CallStats>` entry list; JS maps preserve insertion
order, and `set` on an existing key keeps its position. -/
abbrev StatsMap := List (String × CallStats)

namespace MonthlyCallScheduler

def emptyCallStats : CallStats :=
  { totalCalls := 0, weekendCalls := 0, holidayCalls := 0, nightCalls := 0,
    lastCallDate := none, consecutiveDays := 0, callDates := [], points := 0 }

def getStat (m : StatsMap) (id : String) : CallStats :=
  ((m.find? (fun p => decide (p.1 = id))).map Prod.snd).getD emptyCallStats

def setStat (m : StatsMap) (id : String) (v : CallStats) : StatsMap :=
  if m.any (fun p => decide (p.1 = id)) then
    m.map (fun p => if p.1 = id then (p.1, v) else p)
  else
    m ++ [(id, v)]

/-- Model of `getLastCallDate`: head date of the stable sort descending by
date (`sort((a, b) => b.date - a.date)` then `[0]`). -/
def getLastCallDate (assignments : List CallAssignment) : Option Nat :=
  match sortDesc (fun a b : CallAssignment => decide (b.date ≤ a.date)) assignments with
  | [] => none
  | a :: _ => some a.date

def initializeCallStats (residents : List Resident)
    (existing : List CallAssignment) : StatsMap :=
  residents.foldl (fun m r =>
    let existingCalls := existing.filter
      (fun a => decide (a.residentId = r.id) && decide (a.type ≠ CallKind.postCall))
    setStat m r.id
      { totalCalls := existingCalls.length
        weekendCalls := (existingCalls.filter (fun a => decide (a.type = CallKind.weekend))).length
        holidayCalls := (existingCalls.filter (fun a => decide (a.type = CallKind.holiday))).length
        nightCalls := (existingCalls.filter (fun a => decide (a.type = CallKind.night))).length
        lastCallDate := getLastCallDate existingCalls
        consecutiveDays := 0
        callDates := existingCalls.map CallAssignment.date
        points := existingCalls.foldl (fun acc a => acc + a.points) 0 }) []

def loadHolidays (s : Sched) : List Nat :=
  s.config.holidays ++ [mkDate s.year 0 1, mkDate s.year 6 4, mkDate s.year 11 25]

def getCurrentBlock (s : Sched) (date : Nat) : Option RotationBlock :=
  s.academicYear.blocks.find?
    (fun b => decide (b.startDate ≤ date) && decide (date ≤ b.endDate))

def isWeekend (s : Sched) (date : Nat) : Bool :=
  (s.config.monthlySchedulerConfig.weekendDefinition.map toLowerStr).contains (dayName date)

def isHoliday (s : Sched) (date : Nat) : Bool :=
  (loadHolidays s).any (fun h => decide (h = date))

def isOnLeave (s : Sched) (residentId : String) (date : Nat) : Bool :=
  s.approvedLeave.any (fun l =>
    decide (l.residentId = residentId) && decide (l.status = LeaveStatus.approved) &&
    decide (l.startDate ≤ date) && decide (date ≤ l.endDate))

def isPostCall (m : StatsMap) (residentId : String) (date : Nat) : Bool :=
  match (getStat m residentId).lastCallDate with
  | none => false
  | some lastCall => decide (getDaysBetween lastCall date < 2)

def hasRequestedTimeOff (s : Sched) (residentId : String) (date : Nat) : Bool :=
  s.approvedLeave.any (fun l =>
    decide (l.residentId = residentId) && decide (l.status = LeaveStatus.pendingApproval) &&
    decide (l.startDate ≤ date) && decide (date ≤ l.endDate))

def getResidentTeam (s : Sched) (residentId : String) (date : Nat) : Option Team :=
  (getCurrentBlock s date).bind (fun b =>
    (b.assignments.find? (fun a => decide (a.residentId = residentId))).bind
      RotationAssignment.team)

def getRequiredResidentCount (callType : CallKind) : Nat :=
  match callType with
  | CallKind.holiday => 2
  | CallKind.weekend => 1
  | CallKind.night => 1
  | _ => 0

def requiresPostCall (callType : CallKind) : Bool :=
  decide (callType = CallKind.night) || decide (callType = CallKind.weekend) ||
  decide (callType = CallKind.holiday)

def calculateCallPoints (callType : CallKind) : Nat :=
  match callType with
  | CallKind.night => 1
  | CallKind.weekend => 2
  | CallKind.holiday => 3
  | _ => 0

def getWorkingDaysForBlock (s : Sched) (block : Option RotationBlock) : Nat :=
  match block with
  | none => 28
  | some b =>
    ((List.range (b.endDate + 1 - b.startDate)).map (fun i => b.startDate + i)).countP
      (fun t => !isHoliday s t)

/-- Embedding of `getMaxCalls` (two-tiered PARO / PGY-ratio logic).  A
missing `callRatios` entry and an entry `0` are both JS-falsy, hence both
take the "use PARO cap" branch. -/
def getMaxCalls (s : Sched) (resident : Resident) (workingDays : Nat)
    (staffingLevel : StaffingLevel) : Nat :=
  if resident.isChief && resident.callExempt then 0
  else
    let paroRule := s.config.monthlySchedulerConfig.paroHardCaps.find?
      (fun rule => decide (rule.minDays ≤ workingDays) && decide (workingDays ≤ rule.maxDays))
    let paroHardCap := (paroRule.map PARORule.calls).getD 8
    let callRatio :=
      ((s.config.monthlySchedulerConfig.callRatios.find?
          (fun p => decide (p.1 = resident.pgyLevel))).map Prod.snd).getD 0
    if callRatio = 0 then paroHardCap
    else
      let pgyTarget := workingDays / callRatio
      if staffingLevel = StaffingLevel.normal then min paroHardCap pgyTarget else paroHardCap

/-- Count of recorded call dates in the window `[date - lookback, date)`. -/
def recentWindowCalls (callDates : List Nat) (date lookback : Nat) : Nat :=
  (callDates.filter (fun c =>
    decide ((date : Int) - (lookback : Int) ≤ (c : Int)) && decide (c < date))).length

def checkPAROCompliance (m : StatsMap) (residentId : String) (date : Nat) : Bool :=
  let lookback : Nat := 28
  let recentCalls := recentWindowCalls (getStat m residentId).callDates date lookback
  decide (recentCalls + 1 ≤ lookback / 4)

def maxWeekendsOf (s : Sched) : Nat :=
  if s.config.monthlySchedulerConfig.maxWeekendsPerRotation = 0 then 2
  else s.config.monthlySchedulerConfig.maxWeekendsPerRotation

/-- Embedding of `isEligibleForCall`; the checks short-circuit in source
order. -/
def isEligibleForCall (s : Sched) (m : StatsMap) (resident : Resident) (date : Nat)
    (staffingLevel : StaffingLevel) : Bool :=
  match getCurrentBlock s date with
  | none => false
  | some block =>
    match block.assignments.find? (fun a => decide (a.residentId = resident.id)) with
    | none => false
    | some rotation =>
      if rotation.rotationType ≠ RotationType.coreNsx then false
      else if isOnLeave s resident.id date then false
      else if isPostCall m resident.id date then false
      else
        let workingDays := getWorkingDaysForBlock s (some block)
        let maxCalls := getMaxCalls s resident workingDays staffingLevel
        if (getStat m resident.id).totalCalls ≥ maxCalls then false
        else if isWeekend s date && decide ((getStat m resident.id).weekendCalls ≥ maxWeekendsOf s) then false
        else if !checkPAROCompliance m resident.id date then false
        else true

def getAverageCallCount (s : Sched) (m : StatsMap) : JsNum :=
  if s.residents.length = 0 then JsNum.ofNat 0
  else
    JsNum.div (JsNum.ofNat (m.foldl (fun acc p => acc + p.2.totalCalls) 0))
      (JsNum.ofNat s.residents.length)

def getAveragePoints (s : Sched) (m : StatsMap) : JsNum :=
  if s.residents.length = 0 then JsNum.ofNat 0
  else
    JsNum.div (JsNum.ofNat (m.foldl (fun acc p => acc + p.2.points) 0))
      (JsNum.ofNat s.residents.length)

def getTeamCallBalance (s : Sched) (m : StatsMap) (team : Team) : Int :=
  let counts := s.residents.foldl (fun (acc : Nat × Nat) r =>
    let block := getCurrentBlock s (mkDate s.year s.month 15)
    let rotation := block.bind (fun b =>
      b.assignments.find? (fun a => decide (a.residentId = r.id)))
    if (rotation.bind RotationAssignment.team) = some team then
      (acc.1 + (getStat m r.id).totalCalls, acc.2 + 1)
    else acc) (0, 0)
  if counts.2 = 0 then 0
  else
    let teamAverage := JsNum.div (JsNum.ofNat counts.1) (JsNum.ofNat counts.2)
    let overallAverage := getAverageCallCount s m
    JsNum.round (JsNum.mul (JsNum.sub overallAverage teamAverage) (JsNum.ofNat 5))

/-- Embedding of `scoreResident`.  The human-readable `reasons` strings and
the constant `eligibility` record do not influence selection and are
omitted. -/
def scoreResident (s : Sched) (m : StatsMap) (resident : Resident) (date : Nat)
    (callType : CallKind) : SchedulingScore :=
  let stats := getStat m resident.id
  let avgCalls := getAverageCallCount s m
  let fairnessScore := JsNum.jsMax (JsNum.ofNat 0)
    (JsNum.sub (JsNum.ofNat 30)
      (JsNum.mul (JsNum.sub (JsNum.ofNat stats.totalCalls) avgCalls) (JsNum.ofNat 10)))
  let restScore :=
    match stats.lastCallDate with
    | some lastCall =>
      JsNum.jsMin (JsNum.ofNat (getDaysBetween lastCall date * 3)) (JsNum.ofNat 30)
    | none => JsNum.ofNat 30
  let seniorityScore :=
    if callType = CallKind.weekend ∨ callType = CallKind.holiday then
      JsNum.ofNat (resident.pgyLevel * 2)
    else JsNum.ofNat 0
  let avgPoints := getAveragePoints s m
  let pointScore := JsNum.jsMax (JsNum.ofNat 0)
    (JsNum.sub (JsNum.ofNat 20) (JsNum.sub (JsNum.ofNat stats.points) avgPoints))
  let teamScore :=
    match getResidentTeam s resident.id date with
    | some team => JsNum.ofInt (getTeamCallBalance s m team)
    | none => JsNum.ofNat 0
  let penalty := if hasRequestedTimeOff s resident.id date then JsNum.ofNat 50 else JsNum.ofNat 0
  let total :=
    JsNum.sub
      (JsNum.add (JsNum.add (JsNum.add (JsNum.add (JsNum.ofNat 100) fairnessScore) restScore)
        seniorityScore) (JsNum.add pointScore teamScore))
      penalty
  { resident := resident, score := JsNum.jsMax (JsNum.ofNat 0) total }

/-- Comparator of `scoredResidents.sort((a, b) => b.score - a.score)`. -/
def geScore (a b : SchedulingScore) : Bool := JsNum.ble b.score a.score

def selectBestResident (s : Sched) (m : StatsMap) (date : Nat) (callType : CallKind)
    (staffingLevel : StaffingLevel) (excludeIds : List String) : Option Resident :=
  let eligibleResidents := s.residents.filter (fun r =>
    !excludeIds.contains r.id && isEligibleForCall s m r date staffingLevel)
  if eligibleResidents.isEmpty then none
  else
    let scoredResidents := eligibleResidents.map (fun r => scoreResident s m r date callType)
    match sortDesc geScore scoredResidents with
    | [] => none
    | top :: _ => some top.resident

def padTwo (n : Nat) : String :=
  if n < 10 then "0" ++ toString n else toString n

/-- Embedding of `createCallAssignment`; the `createdAt`/`createdBy`
metadata fields (wall-clock timestamp, constant string) are omitted. -/
def createCallAssignment (s : Sched) (resident : Resident) (date : Nat)
    (callType : CallKind) (isHol : Bool) : CallAssignment :=
  { id := "call-" ++ toString s.year ++ "-" ++ padTwo (s.month + 1) ++ "-" ++
      toString (civilDayOfMonth date) ++ "-" ++ resident.id
    residentId := resident.id
    residentName := resident.name
    date := date
    type := callType
    points := calculateCallPoints callType
    isHoliday := isHol
    team := getResidentTeam s resident.id date
    status := "Scheduled" }

def createPostCallAssignments (s : Sched) (callAssignment : CallAssignment)
    (callType : CallKind) : List CallAssignment :=
  if !requiresPostCall callType then []
  else
    let postCallDate := callAssignment.date + 1
    if civilMonth0 postCallDate ≠ s.month then []
    else
      [{ callAssignment with
          id := "postcall-" ++ callAssignment.id
          date := postCallDate
          type := CallKind.postCall
          points := 0
          status := "PostCall" }]

def updateResidentStats (m : StatsMap) (residentId : String)
    (dayReq : DayRequirements) : StatsMap :=
  let stats := getStat m residentId
  setStat m residentId
    { totalCalls := stats.totalCalls + 1
      weekendCalls := stats.weekendCalls + (if dayReq.isWeekend then 1 else 0)
      holidayCalls := stats.holidayCalls + (if dayReq.isHoliday then 1 else 0)
      nightCalls := stats.nightCalls + (if dayReq.callType = CallKind.night then 1 else 0)
      lastCallDate := some dayReq.date
      consecutiveDays := stats.consecutiveDays
      callDates := stats.callDates ++ [dayReq.date]
      points := stats.points + calculateCallPoints dayReq.callType }

def calculateDayRequirements (s : Sched) (daysInM : Nat) : List DayRequirements :=
  (List.range daysInM).map (fun i =>
    let day := i + 1
    let date := mkDate s.year s.month day
    let dow := dayOfWeek date
    let isW := isWeekend s date
    let isH := isHoliday s date
    let callType :=
      if isH then CallKind.holiday
      else if isW then CallKind.weekend
      else if 1 ≤ dow ∧ dow ≤ 4 then CallKind.night
      else CallKind.noCall
    let priority :=
      if isH then 3
      else if isW then 2
      else if 1 ≤ dow ∧ dow ≤ 4 then 1
      else 0
    { date := date, dayOfWeek := dow, isWeekend := isW, isHoliday := isH,
      callType := callType, requiredCoverage := getRequiredResidentCount callType,
      priority := priority })

/-- State threaded through the inner slot loop:
(assignments, callStats, selected ids of this day). -/
abbrev LoopState := List CallAssignment × StatsMap × List String

/-- One iteration of the inner slot loop of `generateSchedule`: select the
best resident, emit their assignment and any post-call assignment, update
their stats; on `null` the slot stays unfilled (a warning is logged). -/
def processSlot (s : Sched) (staffingLevel : StaffingLevel) (dayReq : DayRequirements)
    (st : LoopState) (_i : Nat) : LoopState :=
  match selectBestResident s st.2.1 dayReq.date dayReq.callType staffingLevel st.2.2 with
  | none => st
  | some best =>
    let assignment := createCallAssignment s best dayReq.date dayReq.callType dayReq.isHoliday
    let postCalls := createPostCallAssignments s assignment dayReq.callType
    (st.1 ++ assignment :: postCalls,
     updateResidentStats st.2.1 best.id dayReq,
     st.2.2 ++ [best.id])

/-- Processing of one (priority-sorted) day requirement of
`generateSchedule`. -/
def processDay (s : Sched) (staffingLevel : StaffingLevel)
    (acc : List CallAssignment × StatsMap) (dayReq : DayRequirements) :
    List CallAssignment × StatsMap :=
  if dayReq.callType = CallKind.noCall then acc
  else
    let requiredResidents := getRequiredResidentCount dayReq.callType
    let final := (List.range requiredResidents).foldl (processSlot s staffingLevel dayReq)
      (acc.1, acc.2, ([] : List String))
    (final.1, final.2.1)

/-- Embedding of the main `generateSchedule` loop. -/
def generateSchedule (s : Sched) (staffingLevel : StaffingLevel) : List CallAssignment :=
  let daysInM := daysInMonth s.year s.month
  let dayRequirements := sortDesc
    (fun a b : DayRequirements => decide (b.priority ≤ a.priority))
    (calculateDayRequirements s daysInM)
  (dayRequirements.foldl (processDay s staffingLevel)
    ([], initializeCallStats s.residents s.existingAssignments)).1

end MonthlyCallScheduler

/-! ## Concrete inputs

Small, fully explicit scheduler inputs used as failing inputs, as
counterexamples and as witnesses.  `exSched` runs August 2025 (month 7,
0-based) with a single resident, a configured holiday on August 20 and
approved leave on every day except August 8, 19 and 20.  `exSchedAB` and
`exSchedBA` run February 2026 with two indistinguishable residents (ids
"a" and "b"), listed in the two possible orders, and a PARO cap of one
call per resident. -/

def exResident1 : Resident :=
  { id := "r1", name := "R One", pgyLevel := 2, specialty := "Neurosurgery",
    onService := true, isChief := false, callExempt := false }

def exYearlyConfig : YearlySchedulerConfig :=
  { mandatoryRotations := [], examLeave := [] }

def exLeavePolicy : LeavePolicy :=
  { minNoticeDays := 30, maxConsecutiveDays := 14, annualLimit := 21 }

def exConfig : AppConfiguration :=
  { monthlySchedulerConfig :=
      { paroHardCaps := [{ minDays := 1, maxDays := 365, calls := 8 }]
        callRatios := []
        maxWeekendsPerRotation := 2
        weekendDefinition := ["Friday", "Saturday", "Sunday"] }
    yearlySchedulerConfig := exYearlyConfig
    coverageRulesRotationBlock := []
    leavePolicy := exLeavePolicy
    holidays := [mkDate 2025 7 20] }

def exBlock : RotationBlock :=
  { blockNumber := 2, startDate := mkDate 2025 7 1, endDate := mkDate 2025 7 31,
    assignments := [{ residentId := "r1", rotationName := "Neurosurgery - Core",
                      rotationType := RotationType.coreNsx, team := none,
                      holidayType := none }] }

def exLeave : List LeaveRequest :=
  [ { id := "lv1", residentId := "r1", leaveType := "Personal",
      status := LeaveStatus.approved,
      startDate := mkDate 2025 7 1, endDate := mkDate 2025 7 7 },
    { id := "lv2", residentId := "r1", leaveType := "Personal",
      status := LeaveStatus.approved,
      startDate := mkDate 2025 7 9, endDate := mkDate 2025 7 18 },
    { id := "lv3", residentId := "r1", leaveType := "Personal",
      status := LeaveStatus.approved,
      startDate := mkDate 2025 7 21, endDate := mkDate 2025 7 31 } ]

def exSched : Sched :=
  { residents := [exResident1]
    config := exConfig
    academicYear := { id := "2025-2026", blocks := [exBlock] }
    approvedLeave := exLeave
    month := 7
    year := 2025
    existingAssignments := [] }

def exResidentA : Resident :=
  { id := "a", name := "Res A", pgyLevel := 2, specialty := "Neurosurgery",
    onService := true, isChief := false, callExempt := false }

def exResidentB : Resident :=
  { id := "b", name := "Res B", pgyLevel := 2, specialty := "Neurosurgery",
    onService := true, isChief := false, callExempt := false }

def exConfigAB : AppConfiguration :=
  { monthlySchedulerConfig :=
      { paroHardCaps := [{ minDays := 1, maxDays := 365, calls := 1 }]
        callRatios := []
        maxWeekendsPerRotation := 2
        weekendDefinition := ["Friday", "Saturday", "Sunday"] }
    yearlySchedulerConfig := exYearlyConfig
    coverageRulesRotationBlock := []
    leavePolicy := exLeavePolicy
    holidays := [] }

def exBlockAB : RotationBlock :=
  { blockNumber := 9, startDate := mkDate 2026 1 1, endDate := mkDate 2026 1 28,
    assignments :=
      [ { residentId := "a", rotationName := "Neurosurgery - Core",
          rotationType := RotationType.coreNsx, team := none, holidayType := none },
        { residentId := "b", rotationName := "Neurosurgery - Core",
          rotationType := RotationType.coreNsx, team := none, holidayType := none } ] }

def exSchedAB : Sched :=
  { residents := [exResidentA, exResidentB]
    config := exConfigAB
    academicYear := { id := "2025-2026", blocks := [exBlockAB] }
    approvedLeave := []
    month := 1
    year := 2026
    existingAssignments := [] }

def exSchedBA : Sched :=
  { exSchedAB with residents := [exResidentB, exResidentA] }

def exChief : Resident :=
  { id := "chief", name := "Chief", pgyLevel := 6, specialty := "Neurosurgery",
    onService := true, isChief := true, callExempt := true }

def exR2 : Resident :=
  { id := "p2", name := "P Two", pgyLevel := 2, specialty := "Neurosurgery",
    onService := true, isChief := false, callExempt := false }

def exR3 : Resident :=
  { id := "p3", name := "P Three", pgyLevel := 3, specialty := "Neurosurgery",
    onService := true, isChief := false, callExempt := false }

def exSchedC3 : Sched :=
  { residents := [exChief, exR2, exR3]
    config :=
      { monthlySchedulerConfig :=
          { paroHardCaps := [{ minDays := 5, maxDays := 40, calls := 6 }]
            callRatios := [(2, 5)]
            maxWeekendsPerRotation := 2
            weekendDefinition := ["Friday", "Saturday", "Sunday"] }
        yearlySchedulerConfig := exYearlyConfig
        coverageRulesRotationBlock := []
        leavePolicy := exLeavePolicy
        holidays := [] }
    academicYear := { id := "2025-2026", blocks := [] }
    approvedLeave := []
    month := 7
    year := 2025
    existingAssignments := [] }

/-! ## Duplicated Monthly Call Scheduler

Embedding of the second class `MonthlyCallScheduler` found in
"Monthly Call Scheduler (Backend logic).ts".  Its `generateSchedule` body
initializes the tracking maps, loops over the days of the month computing
the eligible-resident list for each day, but the selection and assignment
logic is only a comment — nothing is ever pushed onto `assignments`, and
the initial empty array is returned. -/

namespace MonthlyCallSchedulerDup

def getWorkingDaysForBlock (block : Option RotationBlock) : Nat :=
  match block with
  | none => 28
  | some _ => 28

/-- The duplicate's `getMaxCalls`: here a missing (or zero, JS-falsy)
`callRatios` entry falls back to ratio `99` instead of returning the PARO
cap directly. -/
def getMaxCalls (config : AppConfiguration) (resident : Resident) (workingDays : Nat)
    (staffingLevel : StaffingLevel) : Nat :=
  if resident.isChief && resident.callExempt then 0
  else
    let paroRule := config.monthlySchedulerConfig.paroHardCaps.find?
      (fun rule => decide (rule.minDays ≤ workingDays) && decide (workingDays ≤ rule.maxDays))
    let paroHardCap := (paroRule.map PARORule.calls).getD 8
    let rawRatio :=
      ((config.monthlySchedulerConfig.callRatios.find?
          (fun p => decide (p.1 = resident.pgyLevel))).map Prod.snd).getD 0
    let callRatio := if rawRatio = 0 then 99 else rawRatio
    let pgyTarget := workingDays / callRatio
    if staffingLevel = StaffingLevel.normal then min paroHardCap pgyTarget else paroHardCap

/-- The duplicate's `isAvailable` check (note: its leave check ignores the
request status). -/
def isAvailable (config : AppConfiguration) (academicYear : AcademicYear)
    (approvedLeave : List LeaveRequest) (resident : Resident) (date : Nat)
    (callCounts weekendCounts : String → Nat) (staffingLevel : StaffingLevel) : Bool :=
  let block := academicYear.blocks.find?
    (fun b => decide (b.startDate ≤ date) && decide (date ≤ b.endDate))
  let rotation := block.bind (fun b =>
    b.assignments.find? (fun a => decide (a.residentId = resident.id)))
  match rotation with
  | none => false
  | some rot =>
    if rot.rotationType ≠ RotationType.coreNsx then false
    else if approvedLeave.any (fun l =>
        decide (l.startDate ≤ date) && decide (date ≤ l.endDate) &&
        decide (l.residentId = resident.id)) then false
    else
      let workingDays := getWorkingDaysForBlock block
      let maxCalls := getMaxCalls config resident workingDays staffingLevel
      if callCounts resident.id ≥ maxCalls then false
      else
        let weekendDef := config.monthlySchedulerConfig.weekendDefinition.map toLowerStr
        if weekendDef.contains (dayName date) &&
            decide (weekendCounts resident.id ≥
              config.monthlySchedulerConfig.maxWeekendsPerRotation) then false
        else true

/-- The duplicate's `generateSchedule`: the day loop computes eligible
residents but never extends `assignments`; the initial empty list is
returned. -/
def generateSchedule (residents : List Resident) (config : AppConfiguration)
    (academicYear : AcademicYear) (approvedLeave : List LeaveRequest)
    (month year : Nat) (staffingLevel : StaffingLevel) : List CallAssignment :=
  let assignments : List CallAssignment := []
  let daysInM := daysInMonth year month
  let callCounts : String → Nat := fun _ => 0
  let weekendCounts : String → Nat := fun _ => 0
  let _eligiblePerDay := (List.range daysInM).map (fun i =>
    residents.filter (fun res =>
      isAvailable config academicYear approvedLeave res (mkDate year month (i + 1))
        callCounts weekendCounts staffingLevel))
  assignments

end MonthlyCallSchedulerDup

/-! ## Yearly Rotation Engine

Embedding of `YearlyScheduleEngine` (yearly-scheduler.ts).  The mutable
13×N grid `this.schedule` becomes a list of 13 rows of optional
assignments, updated functionally.  Phase 0 (external rotators) and phase
5 (flexible rotations) are no-ops in the source; phase 7 only validates
coverage and logs, never modifying the schedule, so the returned
`AcademicYear` does not depend on it.  `validateBlockCoverage` is still
embedded below for completeness. -/

namespace YearlyScheduleEngine

def BLOCKS_PER_YEAR : Nat := 13

def DAYS_PER_BLOCK : Nat := 28

abbrev Grid := List (List (Option RotationAssignment))

def initialGrid (residentCount : Nat) : Grid :=
  List.replicate BLOCKS_PER_YEAR (List.replicate residentCount none)

def gridGet (g : Grid) (block resIndex : Nat) : Option (Option RotationAssignment) :=
  (g.get? block).bind (fun row => row.get? resIndex)

def gridSet (g : Grid) (block resIndex : Nat) (v : Option RotationAssignment) : Grid :=
  match g.get? block with
  | none => g
  | some row => g.set block (row.set resIndex v)

def isSlotEmpty (g : Grid) (block resIndex : Nat) : Bool :=
  decide (gridGet g block resIndex = some none)

/-- Embedding of `assign`: writes only into an empty slot. -/
def assign (residents : List Resident) (g : Grid) (block resIndex : Nat)
    (rotationName : String) (rotationType : RotationType)
    (holidayType : Option String) : Grid :=
  if isSlotEmpty g block resIndex then
    match (residents.get? resIndex).map Resident.id with
    | none => g
    | some residentId =>
      gridSet g block resIndex (some
        { residentId := residentId, rotationName := rotationName,
          rotationType := rotationType, team := none, holidayType := holidayType })
  else g

/-- Model of `Number(academicYearId.split('-')[0])` on ids of the form
"YYYY-YYYY": the decimal value of the leading digit run. -/
def parseLeadingNat (s : String) : Nat :=
  (s.data.takeWhile (fun c => decide ('0' ≤ c) && decide (c ≤ '9'))).foldl
    (fun acc c => acc * 10 + (c.toNat - 48)) 0

/-- Start/end dates of the 13 blocks: 28-day blocks starting July 1 of the
first calendar year of the academic-year id ("YYYY-YYYY"). -/
def generateBlockDates (academicYearId : String) : List (Nat × Nat) :=
  let startYear := parseLeadingNat academicYearId
  (List.range BLOCKS_PER_YEAR).map (fun i =>
    let start := mkDate startYear 6 1 + DAYS_PER_BLOCK * i
    (start, start + DAYS_PER_BLOCK - 1))

def phase1_AssignMandatoryRotations (residents : List Resident)
    (config : AppConfiguration) (g : Grid) : Grid :=
  (config.yearlySchedulerConfig.mandatoryRotations).foldl (fun g rule =>
    residents.enum.foldl (fun g ri =>
      if rule.pgyLevels.contains ri.2.pgyLevel then
        assign residents g (rule.blockNumber - 1) ri.1 rule.rotationName
          RotationType.mandatoryOffService none
      else g) g) g

def phase2_AssignExamBlocks (residents : List Resident)
    (config : AppConfiguration) (g : Grid) : Grid :=
  (config.yearlySchedulerConfig.examLeave).foldl (fun g rule =>
    residents.enum.foldl (fun g ri =>
      if rule.pgyLevels.contains ri.2.pgyLevel then
        assign residents g (rule.blockNumber - 1) ri.1 rule.rotationName
          RotationType.examLeave none
      else g) g) g

def phase3_AssignHolidayBlocks (residents : List Resident) (g : Grid) : Grid :=
  let seniors := sortDesc
    (fun a b : Nat × Resident => decide (b.2.pgyLevel ≤ a.2.pgyLevel))
    (residents.enum.filter (fun ri => decide (4 ≤ ri.2.pgyLevel)))
  seniors.enum.foldl (fun g si =>
    let blockToAssign := if si.1 % 2 = 0 then 6 else 7
    if isSlotEmpty g (blockToAssign - 1) si.2.1 then
      assign residents g (blockToAssign - 1) si.2.1 "Holiday Leave"
        RotationType.holidayLeave
        (some (if blockToAssign = 6 then "Christmas" else "NewYear"))
    else g) g

def phase4_AssignCoreNeurosurgeryRotations (residents : List Resident) (g : Grid) : Grid :=
  (List.range BLOCKS_PER_YEAR).foldl (fun g block =>
    (List.range residents.length).foldl (fun g resIndex =>
      if isSlotEmpty g block resIndex then
        assign residents g block resIndex "Neurosurgery - Core" RotationType.coreNsx none
      else g) g) g

/-- A CORE_NSX rotation assignment tagged Red. -/
def isRedCore (a : RotationAssignment) : Bool :=
  decide (a.rotationType = RotationType.coreNsx) && decide (a.team = some Team.red)

/-- A CORE_NSX rotation assignment tagged Blue. -/
def isBlueCore (a : RotationAssignment) : Bool :=
  decide (a.rotationType = RotationType.coreNsx) && decide (a.team = some Team.blue)

def cellIsRed (c : Option RotationAssignment) : Bool :=
  match c with
  | some a => isRedCore a
  | none => false

def cellIsBlue (c : Option RotationAssignment) : Bool :=
  match c with
  | some a => isBlueCore a
  | none => false

/-- State step of the second pass of `phase6_BalanceTeams` over one block
row: tag an untagged CORE_NSX cell with the minority team (Red on ties). -/
def balanceStep (st : List (Option RotationAssignment) × Nat × Nat)
    (c : Option RotationAssignment) : List (Option RotationAssignment) × Nat × Nat :=
  match c with
  | some a =>
    if decide (a.rotationType = RotationType.coreNsx) && decide (a.team = none) then
      if st.2.1 ≤ st.2.2 then
        (st.1 ++ [some { a with team := some Team.red }], st.2.1 + 1, st.2.2)
      else
        (st.1 ++ [some { a with team := some Team.blue }], st.2.1, st.2.2 + 1)
    else (st.1 ++ [c], st.2.1, st.2.2)
  | none => (st.1 ++ [c], st.2.1, st.2.2)

/-- Balancing of a single block row: count the already-tagged CORE_NSX
cells, then tag the untagged ones. -/
def balanceBlockRow (row : List (Option RotationAssignment)) :
    List (Option RotationAssignment) :=
  let redTeamCount := row.countP cellIsRed
  let blueTeamCount := row.countP cellIsBlue
  (row.foldl balanceStep ([], redTeamCount, blueTeamCount)).1

def phase6_BalanceTeams (g : Grid) : Grid := g.map balanceBlockRow

/-- Embedding of `validateBlockCoverage` (phase 7); evaluated only for
logging in the source — the generated schedule does not depend on it. -/
def validateBlockCoverage (residents : List Resident)
    (externalRotators : List ExternalRotator) (config : AppConfiguration)
    (blockDates : List (Nat × Nat)) (assignmentsInBlock : List RotationAssignment)
    (blockNumber : Nat) : Bool :=
  let rules := config.coverageRulesRotationBlock.filter CoverageRule.isEnabled
  rules.all (fun rule =>
    let residentIds := (assignmentsInBlock.filter
      (fun a => decide (a.rotationType = RotationType.coreNsx))).map
        RotationAssignment.residentId
    let filtered0 := residents.filter (fun r => residentIds.contains r.id)
    let filtered :=
      if rule.appliesTo = "SPECIALTY" then
        filtered0.filter (fun r => decide (r.specialty = rule.specialty))
      else if rule.appliesTo = "SPECIALTY_PGY_MIN" then
        filtered0.filter (fun r =>
          decide (r.specialty = rule.specialty) && decide (rule.minPgyLevel ≤ r.pgyLevel))
      else filtered0
    let externalCount := (externalRotators.filter (fun rot =>
      match blockDates.get? blockNumber with
      | none => false
      | some bd => decide (rot.startDate ≤ bd.2) && decide (bd.1 ≤ rot.endDate))).length
    decide (rule.minCount ≤ filtered.length + externalCount))

/-- Embedding of `formatScheduleForFirestore` (metadata timestamp
omitted). -/
def formatScheduleForFirestore (academicYearId : String) (g : Grid) : AcademicYear :=
  let blockDates := generateBlockDates academicYearId
  { id := academicYearId
    blocks := (List.range BLOCKS_PER_YEAR).map (fun blockNum =>
      { blockNumber := blockNum + 1
        startDate := ((blockDates.get? blockNum).map Prod.fst).getD 0
        endDate := ((blockDates.get? blockNum).map Prod.snd).getD 0
        assignments := ((g.get? blockNum).getD []).filterMap id }) }

/-- Embedding of the yearly `generateSchedule` pipeline (phases 0 and 5
are no-ops; phase 7 validates and logs without modifying the grid). -/
def generateSchedule (residents : List Resident)
    (externalRotators : List ExternalRotator) (config : AppConfiguration)
    (academicYearId : String) : AcademicYear :=
  let g0 := initialGrid residents.length
  let g1 := phase1_AssignMandatoryRotations residents config g0
  let g2 := phase2_AssignExamBlocks residents config g1
  let g3 := phase3_AssignHolidayBlocks residents g2
  let g4 := phase4_AssignCoreNeurosurgeryRotations residents g3
  let g6 := phase6_BalanceTeams g4
  let _ := externalRotators
  formatScheduleForFirestore academicYearId g6

end YearlyScheduleEngine

/-! ## Leave-Request Analyzer

Embedding of the pure analysis kernel of `analyzeLeaveRequest`
(vacation-analyzer.ts).  The Firestore reads become explicit inputs: the
total count of on-service neurosurgery residents and the list of stored
leave requests.  Human-readable reason/notes strings are kept, with dates
rendered by their day number (the source's locale-dependent
`toLocaleDateString` is abstracted by this rendering; no decision depends
on it). -/

namespace VacationAnalyzer

inductive RiskLevel
  | low
  | medium
  | high
deriving DecidableEq, Repr

inductive Decision
  | approve
  | flaggedForReview
  | deny
deriving DecidableEq, Repr

structure CoverageAnalysis where
  riskLevel : RiskLevel
  availableResidents : Int
  totalResidents : Nat
  overlappingLeaveCount : Nat
  coverageRatio : JsNum
  criticalDates : List Nat
deriving DecidableEq, Repr

structure FairnessAnalysis where
  score : Int
  historicalRate : JsNum
  recentDaysOff : Nat
  peerComparison : JsNum
  recommendations : List String
deriving DecidableEq, Repr

structure ScheduleConflict where
  conflictType : String
  date : Nat
  description : String
  severity : String
deriving DecidableEq, Repr

structure PolicyCompliance where
  isCompliant : Bool
  violations : List String
deriving DecidableEq, Repr

structure Recommendation where
  decision : Decision
  reason : Option String
  notes : List String
deriving DecidableEq, Repr

/-- Ratio-based risk classification of `analyzeCoverageImpact`:
`ratio ≥ 0.8 → Low`, `≥ 0.6 → Medium`, else `High`. -/
def coverageBaseRisk (coverageRatio : JsNum) : RiskLevel :=
  if JsNum.ble ⟨8, 10⟩ coverageRatio then RiskLevel.low
  else if JsNum.ble ⟨6, 10⟩ coverageRatio then RiskLevel.medium
  else RiskLevel.high

/-- Embedding of `analyzeCoverageImpact`.  `totalResidents` is the count
returned by the on-service neurosurgery roster query; `storedLeave` is the
content of the `leaveRequests` collection (the Approved-status and
date-overlap restrictions of the query and the subsequent filter are
applied here). -/
def analyzeCoverageImpact (totalResidents : Nat) (storedLeave : List LeaveRequest)
    (request : LeaveRequest) : CoverageAnalysis :=
  let overlappingLeave := storedLeave.filter (fun l =>
    decide (l.status = LeaveStatus.approved) && decide (request.startDate ≤ l.endDate) &&
    decide (l.startDate ≤ request.endDate) && decide (l.residentId ≠ request.residentId))
  let overlappingCount := overlappingLeave.length
  let availableResidents : Int := (totalResidents : Int) - (overlappingCount : Int) - 1
  let coverageRatio := JsNum.div (JsNum.ofInt availableResidents) (JsNum.ofNat totalResidents)
  let criticalDates :=
    ((List.range (request.endDate + 1 - request.startDate)).map
      (fun i => request.startDate + i)).filter
        (fun t => decide (dayOfWeek t = 0) || decide (dayOfWeek t = 6))
  let baseRisk := coverageBaseRisk coverageRatio
  let riskLevel :=
    if 2 < criticalDates.length ∧ baseRisk = RiskLevel.low then RiskLevel.medium
    else if 4 < criticalDates.length then RiskLevel.high
    else baseRisk
  { riskLevel := riskLevel
    availableResidents := availableResidents
    totalResidents := totalResidents
    overlappingLeaveCount := overlappingCount
    coverageRatio := coverageRatio
    criticalDates := criticalDates }

/-- Embedding of `generateRecommendation` (recommendation synthesis,
first match wins). -/
def generateRecommendation (fairness : FairnessAnalysis) (coverage : CoverageAnalysis)
    (conflicts : List ScheduleConflict) (policyCompliance : PolicyCompliance) :
    Recommendation :=
  let criticalConflicts := conflicts.filter (fun c => decide (c.severity = "High"))
  if h : criticalConflicts.length > 0 then
    let first := criticalConflicts.head (by
      intro hnil
      rw [hnil] at h
      simp at h)
    { decision := Decision.deny
      reason := some ("Conflicts with " ++ toString criticalConflicts.length ++
        " critical assignments including " ++ first.conflictType ++ " on " ++
        toString first.date)
      notes := ["Found " ++ toString conflicts.length ++ " total scheduling conflicts"] }
  else if !policyCompliance.isCompliant ∧ 1 < policyCompliance.violations.length then
    { decision := Decision.deny
      reason := some ("Policy violations: " ++ String.intercalate "; " policyCompliance.violations)
      notes := policyCompliance.violations }
  else if coverage.riskLevel = RiskLevel.high ∧ JsNum.blt coverage.coverageRatio ⟨5, 10⟩ then
    { decision := Decision.deny
      reason := some "Would result in critical understaffing with less than 50% coverage"
      notes := ["Only " ++ toString coverage.availableResidents ++ " of " ++
        toString coverage.totalResidents ++ " residents would be available"] }
  else
    let concerns :=
      (if coverage.riskLevel = RiskLevel.medium then ["medium coverage risk"] else []) ++
      (if fairness.score < 40 then ["low fairness score"] else []) ++
      (if 0 < conflicts.length then ["minor conflicts"] else []) ++
      (if !policyCompliance.isCompliant then ["policy concerns"] else [])
    if 2 ≤ concerns.length then
      { decision := Decision.flaggedForReview
        reason := some ("Multiple concerns: " ++ String.intercalate ", " concerns)
        notes := fairness.recommendations ++ policyCompliance.violations }
    else if concerns.length = 1 then
      { decision := Decision.flaggedForReview
        reason := some ("Requires review due to " ++ (concerns.head?).getD "")
        notes := fairness.recommendations ++ policyCompliance.violations }
    else
      { decision := Decision.approve
        reason := none
        notes := ["Fairness score: " ++ toString fairness.score ++ "/100",
          "Coverage impact: " ++
            (match coverage.riskLevel with
             | RiskLevel.low => "Low"
             | RiskLevel.medium => "Medium"
             | RiskLevel.high => "High")] }

/-- The status written by the `analyzeLeaveRequest` transaction:
`analysisResult.recommendation === 'Deny' ? 'Denied' : 'Pending Approval'`. -/
def analyzerNewStatus (decision : Decision) : LeaveStatus :=
  if decision = Decision.deny then LeaveStatus.denied else LeaveStatus.pendingApproval

end VacationAnalyzer

/-! ## Concrete analyzer inputs -/

def exFairness : VacationAnalyzer.FairnessAnalysis :=
  { score := 80, historicalRate := ⟨1, 2⟩, recentDaysOff := 3,
    peerComparison := ⟨1, 2⟩, recommendations := [] }

def exCoverageMedium : VacationAnalyzer.CoverageAnalysis :=
  { riskLevel := VacationAnalyzer.RiskLevel.medium, availableResidents := 7,
    totalResidents := 10, overlappingLeaveCount := 2, coverageRatio := ⟨7, 10⟩,
    criticalDates := [] }

def exPolicyOk : VacationAnalyzer.PolicyCompliance :=
  { isCompliant := true, violations := [] }

def exReqC6 : LeaveRequest :=
  { id := "rq6", residentId := "r9", leaveType := "Personal",
    status := LeaveStatus.pendingAnalysis,
    startDate := mkDate 2025 8 6, endDate := mkDate 2025 8 21 }

def exLeavesC6 : List LeaveRequest :=
  [ { id := "ol1", residentId := "x1", leaveType := "Personal",
      status := LeaveStatus.approved,
      startDate := mkDate 2025 8 1, endDate := mkDate 2025 8 30 },
    { id := "ol2", residentId := "x2", leaveType := "Personal",
      status := LeaveStatus.approved,
      startDate := mkDate 2025 8 1, endDate := mkDate 2025 8 30 } ]

/-! ## Helper lemmas -/

namespace MonthlyCallScheduler

/-- If a resident passes `isEligibleForCall`, then every short-circuited
check passed; in particular they are not on approved leave on that date
and the PARO compliance check succeeded. -/
theorem isEligibleForCall_checks (s : Sched) (m : StatsMap) (r : Resident) (d : Nat)
    (lvl : StaffingLevel) (h : isEligibleForCall s m r d lvl = true) :
    isOnLeave s r.id d = false ∧ checkPAROCompliance m r.id d = true := by
  unfold isEligibleForCall at h
  split at h
  · exact absurd h (by simp)
  · split at h
    · exact absurd h (by simp)
    · dsimp only at h
      split_ifs at h with h1 h2 h3 h4 h5 h6
      constructor
      · cases hl : isOnLeave s r.id d
        · rfl
        · exact absurd hl h2
      · cases hc : checkPAROCompliance m r.id d
        · exact absurd (by simp [hc]) h6
        · rfl

/-- The scored list that `selectBestResident` sorts. -/
def scoredEligible (s : Sched) (m : StatsMap) (d : Nat) (callType : CallKind)
    (staffingLevel : StaffingLevel) (excludeIds : List String) : List SchedulingScore :=
  (s.residents.filter (fun r =>
    !excludeIds.contains r.id && isEligibleForCall s m r d staffingLevel)).map
      (fun r => scoreResident s m r d callType)

theorem selectBestResident_eq (s : Sched) (m : StatsMap) (d : Nat) (ct : CallKind)
    (lvl : StaffingLevel) (ex : List String) :
    selectBestResident s m d ct lvl ex =
      match sortDesc geScore (scoredEligible s m d ct lvl ex) with
      | [] => none
      | top :: _ => some top.resident := by
  unfold selectBestResident scoredEligible
  by_cases he : (s.residents.filter (fun r =>
      !ex.contains r.id && isEligibleForCall s m r d lvl)).isEmpty = true
  · rw [if_pos he]
    rw [List.isEmpty_iff] at he
    rw [he]
    rfl
  · rw [if_neg he]

/-- A successful selection returns a resident of the roster that passed
`isEligibleForCall`. -/
theorem selectBestResident_some_eligible (s : Sched) (m : StatsMap) (d : Nat)
    (ct : CallKind) (lvl : StaffingLevel) (ex : List String) (r : Resident)
    (h : selectBestResident s m d ct lvl ex = some r) :
    r ∈ s.residents ∧ isEligibleForCall s m r d lvl = true := by
  rw [selectBestResident_eq] at h
  cases hs : sortDesc geScore (scoredEligible s m d ct lvl ex) with
  | nil => rw [hs] at h; exact absurd h (by simp)
  | cons top rest =>
    rw [hs] at h
    have htop : top ∈ scoredEligible s m d ct lvl ex :=
      (mem_sortDesc geScore top _).mp (hs ▸ List.mem_cons_self top rest)
    obtain ⟨r0, hr0, hsc⟩ := List.mem_map.mp htop
    have hres : top.resident = r0 := by rw [← hsc]; rfl
    have hrid : r = r0 := by
      injection h with h2
      rw [← h2, hres]
    obtain ⟨hmem, hpred⟩ := List.mem_filter.mp hr0
    rw [Bool.and_eq_true] at hpred
    rw [hrid]
    exact ⟨hmem, hpred.2⟩

/-- Everything `createPostCallAssignments` emits is a `PostCall`
assignment. -/
theorem mem_createPostCallAssignments_type (s : Sched) (ca : CallAssignment)
    (ct : CallKind) (a : CallAssignment) (h : a ∈ createPostCallAssignments s ca ct) :
    a.type = CallKind.postCall := by
  unfold createPostCallAssignments at h
  split at h
  · exact absurd h (List.not_mem_nil a)
  · dsimp only at h
    split at h
    · exact absurd h (List.not_mem_nil a)
    · rw [List.mem_singleton] at h
      rw [h]

/-- Core invariant of the generated schedule: every non-PostCall
assignment was emitted for a resident who passed `isEligibleForCall`
— in particular one not on approved leave on the assignment's date. -/
theorem generateSchedule_not_on_leave (s : Sched) (lvl : StaffingLevel) :
    ∀ a ∈ generateSchedule s lvl, a.type ≠ CallKind.postCall →
      isOnLeave s a.residentId a.date = false := by
  unfold generateSchedule
  intro a ha hty
  refine (foldl_preserve
    (fun p : List CallAssignment × StatsMap =>
      ∀ x ∈ p.1, x.type ≠ CallKind.postCall → isOnLeave s x.residentId x.date = false)
    (processDay s lvl) ?_ _ _ (by simp)) a ha hty
  intro acc dayReq hinv
  unfold processDay
  by_cases hnc : dayReq.callType = CallKind.noCall
  · rw [if_pos hnc]; exact hinv
  · rw [if_neg hnc]
    refine foldl_preserve
      (fun t : LoopState =>
        ∀ x ∈ t.1, x.type ≠ CallKind.postCall → isOnLeave s x.residentId x.date = false)
      (processSlot s lvl dayReq) ?_ _ _ hinv
    intro t i hinv2
    unfold processSlot
    cases hsel : selectBestResident s t.2.1 dayReq.date dayReq.callType lvl t.2.2 with
    | none => exact hinv2
    | some best =>
      dsimp only
      intro x hx hxty
      rcases List.mem_append.mp hx with hx | hx
      · exact hinv2 x hx hxty
      · rcases List.mem_cons.mp hx with hx | hx
        · have helig := (selectBestResident_some_eligible s t.2.1 dayReq.date
            dayReq.callType lvl t.2.2 best hsel).2
          have hleave := (isEligibleForCall_checks s t.2.1 best dayReq.date lvl helig).1
          rw [hx]
          simpa [createCallAssignment] using hleave
        · exact absurd (mem_createPostCallAssignments_type s _ _ x hx) hxty

end MonthlyCallScheduler

/-- Spec formula for the PARO hard cap: the `calls` value of the first
`paroHardCaps` rule whose day range contains `W`, defaulting to 8. -/
def paroCapSpec (s : Sched) (W : Nat) : Nat :=
  ((s.config.monthlySchedulerConfig.paroHardCaps.find?
    (fun rule => decide (rule.minDays ≤ W) && decide (W ≤ rule.maxDays))).map
      PARORule.calls).getD 8

def dummyCallAssignment : CallAssignment :=
  { id := "", residentId := "", residentName := "", date := 0,
    type := CallKind.noCall, points := 0, isHoliday := false, team := none,
    status := "" }

namespace JsNum

theorem ble_eq_false_iff (x y : JsNum) : ble x y = false ↔ blt y x = true := by
  simp only [ble, blt, decide_eq_false_iff_not, decide_eq_true_eq]
  exact Int.not_le

theorem jsMax_den_pos {x y : JsNum} (hx : 0 < x.den) (hy : 0 < y.den) :
    0 < (jsMax x y).den := by
  unfold jsMax
  split
  · exact hy
  · exact hx

theorem jsMin_den_pos {x y : JsNum} (hx : 0 < x.den) (hy : 0 < y.den) :
    0 < (jsMin x y).den := by
  unfold jsMin
  split
  · exact hx
  · exact hy

theorem add_den_pos {x y : JsNum} (hx : 0 < x.den) (hy : 0 < y.den) :
    0 < (add x y).den := Nat.mul_pos hx hy

theorem sub_den_pos {x y : JsNum} (hx : 0 < x.den) (hy : 0 < y.den) :
    0 < (sub x y).den := Nat.mul_pos hx hy

theorem mul_den_pos {x y : JsNum} (hx : 0 < x.den) (hy : 0 < y.den) :
    0 < (mul x y).den := Nat.mul_pos hx hy

end JsNum

namespace MonthlyCallScheduler

theorem getAverageCallCount_den_pos (s : Sched) (m : StatsMap) :
    0 < (getAverageCallCount s m).den := by
  unfold getAverageCallCount
  split
  · exact Nat.one_pos
  · rename_i h
    simp [JsNum.div, JsNum.mul, JsNum.inv, JsNum.ofNat]
    omega

theorem getAveragePoints_den_pos (s : Sched) (m : StatsMap) :
    0 < (getAveragePoints s m).den := by
  unfold getAveragePoints
  split
  · exact Nat.one_pos
  · rename_i h
    simp [JsNum.div, JsNum.mul, JsNum.inv, JsNum.ofNat]
    omega

/-- Scores produced by `scoreResident` are finite JS numbers: their
denominator is positive (all divisions in the scorer are guarded). -/
theorem scoreResident_den_pos (s : Sched) (m : StatsMap) (r : Resident) (d : Nat)
    (ct : CallKind) : 0 < (scoreResident s m r d ct).score.den := by
  unfold scoreResident
  dsimp only
  repeat'
    first
    | exact Nat.one_pos
    | exact getAverageCallCount_den_pos s m
    | exact getAveragePoints_den_pos s m
    | apply JsNum.jsMax_den_pos
    | apply JsNum.jsMin_den_pos
    | apply JsNum.add_den_pos
    | apply JsNum.sub_den_pos
    | apply JsNum.mul_den_pos
    | split

end MonthlyCallScheduler

namespace YearlyScheduleEngine

/-- All assignments present in a row are still untagged. -/
def rowTeamNone (row : List (Option RotationAssignment)) : Prop :=
  ∀ c ∈ row, ∀ a : RotationAssignment, c = some a → a.team = none

/-- All assignments present in the grid are still untagged. -/
def gridTeamNone (g : Grid) : Prop := ∀ row ∈ g, rowTeamNone row

theorem gridTeamNone_initial (n : Nat) : gridTeamNone (initialGrid n) := by
  intro row hrow c hc a hca
  have hrow2 := List.eq_of_mem_replicate hrow
  subst hrow2
  have hcn := List.eq_of_mem_replicate hc
  rw [hcn] at hca
  exact absurd hca (by simp)

theorem gridTeamNone_gridSet {g : Grid} (h : gridTeamNone g) {ra : RotationAssignment}
    (hra : ra.team = none) (b i : Nat) : gridTeamNone (gridSet g b i (some ra)) := by
  unfold gridSet
  cases hg : g.get? b with
  | none => exact h
  | some row =>
    intro row2 hrow2 c hc a hca
    rcases List.mem_or_eq_of_mem_set hrow2 with hmem | heq
    · exact h row2 hmem c hc a hca
    · subst heq
      rcases List.mem_or_eq_of_mem_set hc with hmem2 | heq2
      · exact h row (List.get?_mem hg) c hmem2 a hca
      · rw [heq2] at hca
        injection hca with h2
        rw [← h2]
        exact hra

theorem gridTeamNone_assign (residents : List Resident) {g : Grid} (h : gridTeamNone g)
    (b i : Nat) (name : String) (ty : RotationType) (ht : Option String) :
    gridTeamNone (assign residents g b i name ty ht) := by
  unfold assign
  split
  · split
    · exact h
    · exact gridTeamNone_gridSet h rfl b i
  · exact h

theorem gridTeamNone_phase1 (residents : List Resident) (config : AppConfiguration)
    {g : Grid} (h : gridTeamNone g) :
    gridTeamNone (phase1_AssignMandatoryRotations residents config g) := by
  unfold phase1_AssignMandatoryRotations
  refine foldl_preserve gridTeamNone _ ?_ _ _ h
  intro g rule hg
  refine foldl_preserve gridTeamNone _ ?_ _ _ hg
  intro g ri hg2
  split
  · exact gridTeamNone_assign residents hg2 _ _ _ _ _
  · exact hg2

theorem gridTeamNone_phase2 (residents : List Resident) (config : AppConfiguration)
    {g : Grid} (h : gridTeamNone g) :
    gridTeamNone (phase2_AssignExamBlocks residents config g) := by
  unfold phase2_AssignExamBlocks
  refine foldl_preserve gridTeamNone _ ?_ _ _ h
  intro g rule hg
  refine foldl_preserve gridTeamNone _ ?_ _ _ hg
  intro g ri hg2
  split
  · exact gridTeamNone_assign residents hg2 _ _ _ _ _
  · exact hg2

theorem gridTeamNone_phase3 (residents : List Resident) {g : Grid} (h : gridTeamNone g) :
    gridTeamNone (phase3_AssignHolidayBlocks residents g) := by
  unfold phase3_AssignHolidayBlocks
  refine foldl_preserve gridTeamNone _ ?_ _ _ h
  intro g si hg
  dsimp only
  split <;> split
  · exact gridTeamNone_assign residents hg _ _ _ _ _
  · exact hg
  · exact gridTeamNone_assign residents hg _ _ _ _ _
  · exact hg

theorem gridTeamNone_phase4 (residents : List Resident) {g : Grid} (h : gridTeamNone g) :
    gridTeamNone (phase4_AssignCoreNeurosurgeryRotations residents g) := by
  unfold phase4_AssignCoreNeurosurgeryRotations
  refine foldl_preserve gridTeamNone _ ?_ _ _ h
  intro g block hg
  refine foldl_preserve gridTeamNone _ ?_ _ _ hg
  intro g resIndex hg2
  split
  · exact gridTeamNone_assign residents hg2 _ _ _ _ _
  · exact hg2

theorem cellIsRed_of_teamNone {c : Option RotationAssignment}
    (h : ∀ a : RotationAssignment, c = some a → a.team = none) : cellIsRed c = false := by
  cases c with
  | none => rfl
  | some a =>
    have := h a rfl
    simp [cellIsRed, isRedCore, this]

theorem cellIsBlue_of_teamNone {c : Option RotationAssignment}
    (h : ∀ a : RotationAssignment, c = some a → a.team = none) : cellIsBlue c = false := by
  cases c with
  | none => rfl
  | some a =>
    have := h a rfl
    simp [cellIsBlue, isBlueCore, this]

/-- Invariant of the second pass of `phase6_BalanceTeams`: provided every
remaining cell is untagged and the running counters match the Red/Blue
counts of the emitted prefix and differ by at most one (Red ahead), the
final row's counts differ by at most one with Red ahead. -/
theorem balance_fold (row : List (Option RotationAssignment)) :
    ∀ (acc : List (Option RotationAssignment)) (r b : Nat),
      (∀ c ∈ row, ∀ a : RotationAssignment, c = some a → a.team = none) →
      r = acc.countP cellIsRed → b = acc.countP cellIsBlue → (r = b ∨ r = b + 1) →
      ((row.foldl balanceStep (acc, r, b)).1.countP cellIsRed =
         (row.foldl balanceStep (acc, r, b)).1.countP cellIsBlue ∨
       (row.foldl balanceStep (acc, r, b)).1.countP cellIsRed =
         (row.foldl balanceStep (acc, r, b)).1.countP cellIsBlue + 1) := by
  induction row with
  | nil =>
    intro acc r b _ hr hb hinv
    rw [hr, hb] at hinv
    simpa using hinv
  | cons c row ih =>
    intro acc r b hn hr hb hinv
    have hn2 : ∀ x ∈ row, ∀ a : RotationAssignment, x = some a → a.team = none :=
      fun x hx => hn x (List.mem_cons_of_mem c hx)
    rw [List.foldl_cons]
    cases c with
    | none =>
      have hstep : balanceStep (acc, r, b) none = (acc ++ [none], r, b) := rfl
      rw [hstep]
      refine ih (acc ++ [none]) r b hn2 ?_ ?_ hinv
      · simp [List.countP_append, cellIsRed, hr]
      · simp [List.countP_append, cellIsBlue, hb]
    | some a =>
      have hteam : a.team = none := hn (some a) (List.mem_cons_self _ _) a rfl
      by_cases hcore : a.rotationType = RotationType.coreNsx
      · by_cases hrb : r ≤ b
        · have hstep : balanceStep (acc, r, b) (some a) =
              (acc ++ [some { a with team := some Team.red }], r + 1, b) := by
            simp [balanceStep, hcore, hteam, hrb]
          rw [hstep]
          refine ih _ _ _ hn2 ?_ ?_ ?_
          · simp [List.countP_append, cellIsRed, isRedCore, hcore, hr]
          · simp [List.countP_append, cellIsBlue, isBlueCore, hb]
          · omega
        · have hstep : balanceStep (acc, r, b) (some a) =
              (acc ++ [some { a with team := some Team.blue }], r, b + 1) := by
            simp [balanceStep, hcore, hteam, hrb]
          rw [hstep]
          refine ih _ _ _ hn2 ?_ ?_ ?_
          · simp [List.countP_append, cellIsRed, isRedCore, hr]
          · simp [List.countP_append, cellIsBlue, isBlueCore, hcore, hb]
          · omega
      · have hstep : balanceStep (acc, r, b) (some a) = (acc ++ [some a], r, b) := by
          simp [balanceStep, hcore]
        rw [hstep]
        refine ih _ _ _ hn2 ?_ ?_ hinv
        · simp [List.countP_append, cellIsRed, isRedCore, hcore, hr]
        · simp [List.countP_append, cellIsBlue, isBlueCore, hcore, hb]

/-- Balancing an all-untagged row yields Red/Blue CORE_NSX counts that are
equal or differ by one in Red's favour. -/
theorem balanceBlockRow_balanced (row : List (Option RotationAssignment))
    (hn : ∀ c ∈ row, ∀ a : RotationAssignment, c = some a → a.team = none) :
    (balanceBlockRow row).countP cellIsRed = (balanceBlockRow row).countP cellIsBlue ∨
    (balanceBlockRow row).countP cellIsRed = (balanceBlockRow row).countP cellIsBlue + 1 := by
  unfold balanceBlockRow
  have hred : row.countP cellIsRed = 0 :=
    List.countP_eq_zero.mpr (fun c hc => by simp [cellIsRed_of_teamNone (hn c hc)])
  have hblue : row.countP cellIsBlue = 0 :=
    List.countP_eq_zero.mpr (fun c hc => by simp [cellIsBlue_of_teamNone (hn c hc)])
  simp only [hred, hblue]
  exact balance_fold row [] 0 0 hn (by simp) (by simp) (Or.inl rfl)

/-- Counting tagged CORE_NSX assignments of a block row commutes with the
`filterMap id` that flattens the row into the block's assignment list. -/
theorem countP_filterMap_id_row (p : RotationAssignment → Bool)
    (l : List (Option RotationAssignment)) :
    (l.filterMap id).countP p =
      l.countP (fun c => match c with | some a => p a | none => false) := by
  induction l with
  | nil => rfl
  | cons c t ih =>
    cases c with
    | none => simpa [List.countP_cons] using ih
    | some a => simp [List.countP_cons, ih]

end YearlyScheduleEngine

/-! ## Claim theorems -/

/-- Claim C1 (code bug evaluation).  The spec's post-call rest invariant
— no resident holds non-PostCall calls on two consecutive days — fails on
the code: with a single resident, a configured holiday on 2025-08-20 and
approved leave on every other August day except the 8th and the 19th, the
generated schedule gives that resident non-PostCall calls on both
August 19 and August 20.  Days are processed in priority order (holiday
first) and only the most recent assignment date is kept in
`lastCallDate`, so the August 8 weekend call erases the memory of the
August 20 holiday call before August 19 is processed. -/
theorem C1_consecutive_nonpostcall_emitted :
    ∃ a ∈ MonthlyCallScheduler.generateSchedule exSched StaffingLevel.normal,
    ∃ b ∈ MonthlyCallScheduler.generateSchedule exSched StaffingLevel.normal,
      a.residentId = b.residentId ∧ a.type ≠ CallKind.postCall ∧
      b.type ≠ CallKind.postCall ∧ b.date = a.date + 1 := by decide

/-- Claim C2 counterexample.  A CallAssignment can be emitted for a
resident on a day inside one of their approved leaves: the PostCall
assignment created for the day after a call is never checked against
leave.  On `exSched`, the August 20 holiday call produces a PostCall on
August 21, the first day of the resident's approved leave
August 21–31. -/
theorem C2_postcall_on_leave_counterexample :
    ∃ a ∈ MonthlyCallScheduler.generateSchedule exSched StaffingLevel.normal,
      a.type = CallKind.postCall ∧
      ∃ l ∈ exSched.approvedLeave, l.status = LeaveStatus.approved ∧
        l.residentId = a.residentId ∧ l.startDate ≤ a.date ∧ a.date ≤ l.endDate := by
  decide

/-- Claim C2, amended.  Restricted to non-PostCall assignments the claim
holds: if resident r has an approved leave spanning `[s,e]`, no
non-PostCall CallAssignment with residentId r is emitted for any day in
`[s,e]` (every emitted non-PostCall assignment passed the
`isEligibleForCall` leave check). -/
theorem C2_no_nonpostcall_on_approved_leave :
    ∀ (s : Sched) (lvl : StaffingLevel) (l : LeaveRequest),
      l ∈ s.approvedLeave → l.status = LeaveStatus.approved →
      ∀ a ∈ MonthlyCallScheduler.generateSchedule s lvl,
        a.residentId = l.residentId → a.type ≠ CallKind.postCall →
        ¬(l.startDate ≤ a.date ∧ a.date ≤ l.endDate) := by
  intro s lvl l hl hst a ha hid hty hspan
  have hfalse := MonthlyCallScheduler.generateSchedule_not_on_leave s lvl a ha hty
  unfold MonthlyCallScheduler.isOnLeave at hfalse
  have hnone := (List.any_eq_false.mp hfalse) l hl
  apply hnone
  simp [hid.symm, hst, hspan.1, hspan.2]

/-- Witness for C2: at the concrete input `exSched`, the first generated
assignment (the August 20 holiday call of resident r1) indeed does not
fall inside the approved leave August 21–31. -/
theorem C2_no_nonpostcall_on_approved_leave_witness :
    ¬((mkDate 2025 7 21 : Nat) ≤
        ((MonthlyCallScheduler.generateSchedule exSched StaffingLevel.normal).headD
          dummyCallAssignment).date ∧
      ((MonthlyCallScheduler.generateSchedule exSched StaffingLevel.normal).headD
          dummyCallAssignment).date ≤ mkDate 2025 7 31) :=
  C2_no_nonpostcall_on_approved_leave exSched StaffingLevel.normal
    { id := "lv3", residentId := "r1", leaveType := "Personal",
      status := LeaveStatus.approved,
      startDate := mkDate 2025 7 21, endDate := mkDate 2025 7 31 }
    (by decide) (by decide)
    ((MonthlyCallScheduler.generateSchedule exSched StaffingLevel.normal).headD
      dummyCallAssignment)
    (by decide) (by decide) (by decide)

/-- Claim C3.  `getMaxCalls` returns 0 for call-exempt chiefs; otherwise,
with `paroCapSpec` the first matching PARO hard cap (default 8), it
returns the cap when the resident's PGY level has no (JS-truthy)
`callRatios` entry, and otherwise `min(cap, ⌊W / ratio⌋)` in Normal mode
and the cap in Shortage mode. -/
theorem C3_getMaxCalls_formula :
    ∀ (s : Sched) (r : Resident) (W : Nat) (lvl : StaffingLevel),
      (r.isChief = true → r.callExempt = true →
        MonthlyCallScheduler.getMaxCalls s r W lvl = 0) ∧
      (¬(r.isChief = true ∧ r.callExempt = true) →
        ((s.config.monthlySchedulerConfig.callRatios.find?
            (fun p => decide (p.1 = r.pgyLevel))) = none →
          MonthlyCallScheduler.getMaxCalls s r W lvl = paroCapSpec s W) ∧
        (∀ ratio : Nat,
          ((s.config.monthlySchedulerConfig.callRatios.find?
              (fun p => decide (p.1 = r.pgyLevel))).map Prod.snd) = some ratio →
          0 < ratio →
          MonthlyCallScheduler.getMaxCalls s r W lvl =
            if lvl = StaffingLevel.normal then min (paroCapSpec s W) (W / ratio)
            else paroCapSpec s W)) := by
  intro s r W lvl
  constructor
  · intro hchief hexempt
    unfold MonthlyCallScheduler.getMaxCalls
    rw [if_pos (by simp [hchief, hexempt])]
  · intro hnc
    have hcond : (r.isChief && r.callExempt) ≠ true :=
      fun hcontra => hnc (by simpa using hcontra)
    constructor
    · intro hnone
      unfold MonthlyCallScheduler.getMaxCalls paroCapSpec
      rw [if_neg hcond]
      simp [hnone]
    · intro ratio hsome hpos
      unfold MonthlyCallScheduler.getMaxCalls paroCapSpec
      rw [if_neg hcond]
      simp only [hsome, Option.getD_some]
      rw [if_neg (by omega)]

/-- Witness for C3 at a concrete configuration (cap rule (5,40) ↦ 6 calls,
ratio 1:5 for PGY-2, no entry for PGY-3): a call-exempt chief gets 0, a
PGY-3 resident gets the cap 6, and a PGY-2 resident in Normal mode gets
min(6, 30/5) = 6. -/
theorem C3_getMaxCalls_formula_witness :
    MonthlyCallScheduler.getMaxCalls exSchedC3 exChief 30 StaffingLevel.normal = 0 ∧
    MonthlyCallScheduler.getMaxCalls exSchedC3 exR3 30 StaffingLevel.shortage = 6 ∧
    MonthlyCallScheduler.getMaxCalls exSchedC3 exR2 30 StaffingLevel.normal = 6 :=
  ⟨(C3_getMaxCalls_formula exSchedC3 exChief 30 StaffingLevel.normal).1 (by decide) (by decide),
   (((C3_getMaxCalls_formula exSchedC3 exR3 30 StaffingLevel.shortage).2 (by decide)).1
      (by decide)).trans (by decide),
   ((((C3_getMaxCalls_formula exSchedC3 exR2 30 StaffingLevel.normal).2 (by decide)).2 5
      (by decide) (by decide)).trans (by decide))⟩

/-- Claim C8.  Shortage staffing never lowers the cap:
`maxCalls(r, W, Normal) ≤ maxCalls(r, W, Shortage)` for every resident,
working-day count and configuration. -/
theorem C8_shortage_relaxes_cap :
    ∀ (s : Sched) (r : Resident) (W : Nat),
      MonthlyCallScheduler.getMaxCalls s r W StaffingLevel.normal ≤
      MonthlyCallScheduler.getMaxCalls s r W StaffingLevel.shortage := by
  intro s r W
  unfold MonthlyCallScheduler.getMaxCalls
  by_cases hc : (r.isChief && r.callExempt) = true
  · simp [hc]
  · rw [if_neg hc, if_neg hc]
    by_cases hr : (((s.config.monthlySchedulerConfig.callRatios.find?
        (fun p => decide (p.1 = r.pgyLevel))).map Prod.snd).getD 0) = 0
    · simp [hr]
    · simp only [hr, if_false]
      simp

/-- Claim C9.  Eligibility implies the PARO 1-in-4 window bound: a
resident eligible on date d has at most 6 prior recorded calls in
`[d - 28, d)`, i.e. `recentCalls + 1 ≤ 7`; and eligibility check 7
(`checkPAROCompliance`) fails exactly when `recentCalls + 1 > 7`. -/
theorem C9_paro_one_in_four :
    ∀ (s : Sched) (m : StatsMap) (r : Resident) (d : Nat) (lvl : StaffingLevel),
      (MonthlyCallScheduler.isEligibleForCall s m r d lvl = true →
        MonthlyCallScheduler.recentWindowCalls
          (MonthlyCallScheduler.getStat m r.id).callDates d 28 + 1 ≤ 7) ∧
      (MonthlyCallScheduler.checkPAROCompliance m r.id d = false ↔
        7 < MonthlyCallScheduler.recentWindowCalls
          (MonthlyCallScheduler.getStat m r.id).callDates d 28 + 1) := by
  intro s m r d lvl
  constructor
  · intro h
    have hparo := (MonthlyCallScheduler.isEligibleForCall_checks s m r d lvl h).2
    unfold MonthlyCallScheduler.checkPAROCompliance at hparo
    simpa using hparo
  · unfold MonthlyCallScheduler.checkPAROCompliance
    simp [Nat.not_le]
    omega

/-- Witness for C9: on `exSched`'s initial stats, resident r1 is eligible
on 2025-08-20 and indeed has `0 + 1 ≤ 7` recent calls. -/
theorem C9_paro_one_in_four_witness :
    MonthlyCallScheduler.recentWindowCalls
      (MonthlyCallScheduler.getStat
        (MonthlyCallScheduler.initializeCallStats [exResident1] []) exResident1.id).callDates
      (mkDate 2025 7 20) 28 + 1 ≤ 7 :=
  (C9_paro_one_in_four exSched (MonthlyCallScheduler.initializeCallStats [exResident1] [])
    exResident1 (mkDate 2025 7 20) StaffingLevel.normal).1 (by decide)

/-- Claim C4 counterexample.  `selectBestResident` breaks score ties by
position in the residents list, not by call count or resident id, so
`generateSchedule` is not invariant under reordering of the residents
list.  `exSchedAB`/`exSchedBA` differ only in the order of two residents
with identical attributes and stats (equal scores, equal call count 0,
ids "a" < "b"): run AB first assigns "a", run BA first assigns "b"
(although "a" is eligible with an equal score, equal call count and the
lexicographically smaller id), and the two outputs differ. -/
theorem C4_order_dependence_counterexample :
    ((MonthlyCallScheduler.generateSchedule exSchedAB StaffingLevel.normal).headD
        dummyCallAssignment).residentId = "a" ∧
    ((MonthlyCallScheduler.generateSchedule exSchedBA StaffingLevel.normal).headD
        dummyCallAssignment).residentId = "b" ∧
    MonthlyCallScheduler.generateSchedule exSchedAB StaffingLevel.normal ≠
      MonthlyCallScheduler.generateSchedule exSchedBA StaffingLevel.normal := by decide

/-- Claim C4, amended.  A successful `selectBestResident` returns the
eligible resident whose score is maximal and who appears earliest in the
residents-list order among score ties: the scored-eligible list splits as
`pre ++ sc :: post` where the selected resident is `sc.resident`, every
earlier entry scores strictly below `sc` and no entry scores above it.
There is no further tie-break by call count or id, and selection (hence
`generateSchedule`) depends on the ordering of the residents list. -/
theorem C4_first_max_selection :
    ∀ (s : Sched) (m : StatsMap) (d : Nat) (ct : CallKind) (lvl : StaffingLevel)
      (ex : List String) (r : Resident),
      MonthlyCallScheduler.selectBestResident s m d ct lvl ex = some r →
      ∃ pre sc post,
        MonthlyCallScheduler.scoredEligible s m d ct lvl ex = pre ++ sc :: post ∧
        sc.resident = r ∧
        (∀ x ∈ pre, JsNum.blt x.score sc.score = true) ∧
        (∀ x ∈ MonthlyCallScheduler.scoredEligible s m d ct lvl ex,
          JsNum.ble x.score sc.score = true) := by
  intro s m d ct lvl ex r h
  rw [MonthlyCallScheduler.selectBestResident_eq] at h
  cases hs : sortDesc MonthlyCallScheduler.geScore
      (MonthlyCallScheduler.scoredEligible s m d ct lvl ex) with
  | nil => rw [hs] at h; exact absurd h (by simp)
  | cons top rest =>
    rw [hs] at h
    injection h with h1
    have hden : ∀ x ∈ MonthlyCallScheduler.scoredEligible s m d ct lvl ex,
        0 < x.score.den := by
      intro x hx
      obtain ⟨r0, _, hr0⟩ := List.mem_map.mp hx
      rw [← hr0]
      exact MonthlyCallScheduler.scoreResident_den_pos s m r0 d ct
    have htot : ∀ a ∈ MonthlyCallScheduler.scoredEligible s m d ct lvl ex,
        ∀ b ∈ MonthlyCallScheduler.scoredEligible s m d ct lvl ex,
        MonthlyCallScheduler.geScore a b = true ∨
          MonthlyCallScheduler.geScore b a = true :=
      fun a _ b _ => JsNum.ble_total b.score a.score
    have htrans : ∀ a ∈ MonthlyCallScheduler.scoredEligible s m d ct lvl ex,
        ∀ b ∈ MonthlyCallScheduler.scoredEligible s m d ct lvl ex,
        ∀ c ∈ MonthlyCallScheduler.scoredEligible s m d ct lvl ex,
        MonthlyCallScheduler.geScore a b = true →
          MonthlyCallScheduler.geScore b c = true →
          MonthlyCallScheduler.geScore a c = true :=
      fun a _ b hb c _ h1 h2 => JsNum.ble_trans (hden b hb) h2 h1
    obtain ⟨hmax, pre, post, hdec, hpre⟩ :=
      sortDesc_head_first_max MonthlyCallScheduler.geScore _ htot htrans top rest hs
    refine ⟨pre, top, post, hdec, h1, ?_, ?_⟩
    · intro x hx
      have hfalse : MonthlyCallScheduler.geScore x top = false := hpre x hx
      exact (JsNum.ble_eq_false_iff top.score x.score).mp hfalse
    · intro x hx
      exact hmax x hx

/-- Witness for C4: on the concrete run `exSchedBA` (residents listed
["b", "a"]), the first weekend-day selection succeeds and the amended
first-max description applies to it. -/
theorem C4_first_max_selection_witness :
    ∃ pre sc post,
      MonthlyCallScheduler.scoredEligible exSchedBA
        (MonthlyCallScheduler.initializeCallStats [exResidentB, exResidentA] [])
        (mkDate 2026 1 1) CallKind.weekend StaffingLevel.normal [] =
          pre ++ sc :: post ∧
      sc.resident = exResidentB ∧
      (∀ x ∈ pre, JsNum.blt x.score sc.score = true) ∧
      (∀ x ∈ MonthlyCallScheduler.scoredEligible exSchedBA
          (MonthlyCallScheduler.initializeCallStats [exResidentB, exResidentA] [])
          (mkDate 2026 1 1) CallKind.weekend StaffingLevel.normal [],
        JsNum.ble x.score sc.score = true) :=
  C4_first_max_selection exSchedBA
    (MonthlyCallScheduler.initializeCallStats [exResidentB, exResidentA] [])
    (mkDate 2026 1 1) CallKind.weekend StaffingLevel.normal [] exResidentB (by decide)

/-- Claim C5 counterexample.  When the synthesized recommendation is
"Flagged for Review" (here: a single concern, medium coverage risk), the
transaction's status update writes "Pending Approval", not "Flagged for
Review": the update is the two-way ternary
`recommendation === 'Deny' ? 'Denied' : 'Pending Approval'`. -/
theorem C5_flagged_status_counterexample :
    (VacationAnalyzer.generateRecommendation exFairness exCoverageMedium [] exPolicyOk).decision
      = VacationAnalyzer.Decision.flaggedForReview ∧
    VacationAnalyzer.analyzerNewStatus
      (VacationAnalyzer.generateRecommendation exFairness exCoverageMedium [] exPolicyOk).decision
      = LeaveStatus.pendingApproval ∧
    LeaveStatus.pendingApproval ≠ LeaveStatus.flaggedForReview := by decide

/-- Claim C5, amended.  On completing analysis the request's status is set
to Denied exactly when the synthesized recommendation is Deny, and to
Pending Approval otherwise — including when the recommendation is Flagged
for Review. -/
theorem C5_status_transition :
    ∀ (f : VacationAnalyzer.FairnessAnalysis) (c : VacationAnalyzer.CoverageAnalysis)
      (k : List VacationAnalyzer.ScheduleConflict) (p : VacationAnalyzer.PolicyCompliance),
      ((VacationAnalyzer.generateRecommendation f c k p).decision
          = VacationAnalyzer.Decision.deny →
        VacationAnalyzer.analyzerNewStatus
          (VacationAnalyzer.generateRecommendation f c k p).decision = LeaveStatus.denied) ∧
      ((VacationAnalyzer.generateRecommendation f c k p).decision
          = VacationAnalyzer.Decision.approve →
        VacationAnalyzer.analyzerNewStatus
          (VacationAnalyzer.generateRecommendation f c k p).decision
            = LeaveStatus.pendingApproval) ∧
      ((VacationAnalyzer.generateRecommendation f c k p).decision
          = VacationAnalyzer.Decision.flaggedForReview →
        VacationAnalyzer.analyzerNewStatus
          (VacationAnalyzer.generateRecommendation f c k p).decision
            = LeaveStatus.pendingApproval) := by
  intro f c k p
  cases hd : (VacationAnalyzer.generateRecommendation f c k p).decision <;>
    simp [hd, VacationAnalyzer.analyzerNewStatus]

/-- Witness for C5: at the concrete flagged-for-review input the status
written is Pending Approval. -/
theorem C5_status_transition_witness :
    VacationAnalyzer.analyzerNewStatus
      (VacationAnalyzer.generateRecommendation exFairness exCoverageMedium [] exPolicyOk).decision
      = LeaveStatus.pendingApproval :=
  (C5_status_transition exFairness exCoverageMedium [] exPolicyOk).2.2 (by decide)

/-- Claim C6 counterexample.  A request spanning 2025-09-06 to 2025-09-21
contains 6 weekend days (> 4); with 10 residents and no overlapping leave
the coverage ratio is 0.9 (base level Low), and `analyzeCoverageImpact`
returns Medium — not High: the `> 4 → High` escalation sits in an
`else if` behind the `> 2 ∧ Low → Medium` branch. -/
theorem C6_weekend_escalation_counterexample :
    4 < (VacationAnalyzer.analyzeCoverageImpact 10 [] exReqC6).criticalDates.length ∧
    (VacationAnalyzer.analyzeCoverageImpact 10 [] exReqC6).riskLevel
      ≠ VacationAnalyzer.RiskLevel.high ∧
    (VacationAnalyzer.analyzeCoverageImpact 10 [] exReqC6).riskLevel
      = VacationAnalyzer.RiskLevel.medium := by decide

/-- Claim C6, amended.  With more than 2 weekend days in the request and a
ratio-based Low level the returned risk is Medium (even with more than 4
weekend days); with more than 4 weekend days and a ratio-based level other
than Low the returned risk is High. -/
theorem C6_weekend_escalation :
    ∀ (total : Nat) (stored : List LeaveRequest) (req : LeaveRequest),
      (2 < (VacationAnalyzer.analyzeCoverageImpact total stored req).criticalDates.length →
        VacationAnalyzer.coverageBaseRisk
          (VacationAnalyzer.analyzeCoverageImpact total stored req).coverageRatio
          = VacationAnalyzer.RiskLevel.low →
        (VacationAnalyzer.analyzeCoverageImpact total stored req).riskLevel
          = VacationAnalyzer.RiskLevel.medium) ∧
      (4 < (VacationAnalyzer.analyzeCoverageImpact total stored req).criticalDates.length →
        VacationAnalyzer.coverageBaseRisk
          (VacationAnalyzer.analyzeCoverageImpact total stored req).coverageRatio
          ≠ VacationAnalyzer.RiskLevel.low →
        (VacationAnalyzer.analyzeCoverageImpact total stored req).riskLevel
          = VacationAnalyzer.RiskLevel.high) := by
  intro total stored req
  unfold VacationAnalyzer.analyzeCoverageImpact
  dsimp only
  constructor
  · intro hlen hbase
    rw [if_pos ⟨hlen, hbase⟩]
  · intro hlen hbase
    rw [if_neg (fun hcontra => hbase hcontra.2), if_pos hlen]

/-- Witness for C6: the Low-base counterexample input yields Medium, and
the same request with two overlapping approved leaves (ratio 0.7, base
Medium) yields High. -/
theorem C6_weekend_escalation_witness :
    (VacationAnalyzer.analyzeCoverageImpact 10 [] exReqC6).riskLevel
      = VacationAnalyzer.RiskLevel.medium ∧
    (VacationAnalyzer.analyzeCoverageImpact 10 exLeavesC6 exReqC6).riskLevel
      = VacationAnalyzer.RiskLevel.high :=
  ⟨(C6_weekend_escalation 10 [] exReqC6).1 (by decide) (by decide),
   (C6_weekend_escalation 10 exLeavesC6 exReqC6).2 (by decide) (by decide)⟩

/-- Claim C7.  In every AcademicYear produced by the yearly engine, each
block's CORE_NSX assignments have Red and Blue counts differing by at most
one; since ties assign Red first, Red is never behind:
`red = blue ∨ red = blue + 1`. -/
theorem C7_team_balance :
    ∀ (residents : List Resident) (extRot : List ExternalRotator)
      (config : AppConfiguration) (yid : String),
      ∀ blk ∈ (YearlyScheduleEngine.generateSchedule residents extRot config yid).blocks,
        blk.assignments.countP YearlyScheduleEngine.isRedCore =
          blk.assignments.countP YearlyScheduleEngine.isBlueCore ∨
        blk.assignments.countP YearlyScheduleEngine.isRedCore =
          blk.assignments.countP YearlyScheduleEngine.isBlueCore + 1 := by
  intro residents extRot config yid blk hblk
  unfold YearlyScheduleEngine.generateSchedule
    YearlyScheduleEngine.formatScheduleForFirestore at hblk
  dsimp only at hblk
  obtain ⟨bn, hbn, hble⟩ := List.mem_map.mp hblk
  have hassign : blk.assignments =
      (((YearlyScheduleEngine.phase6_BalanceTeams
          (YearlyScheduleEngine.phase4_AssignCoreNeurosurgeryRotations residents
            (YearlyScheduleEngine.phase3_AssignHolidayBlocks residents
              (YearlyScheduleEngine.phase2_AssignExamBlocks residents config
                (YearlyScheduleEngine.phase1_AssignMandatoryRotations residents config
                  (YearlyScheduleEngine.initialGrid residents.length)))))).get? bn).getD
        []).filterMap id := by
    rw [← hble]
  rw [hassign]
  unfold YearlyScheduleEngine.phase6_BalanceTeams
  rw [List.get?_map]
  cases hg : (YearlyScheduleEngine.phase4_AssignCoreNeurosurgeryRotations residents
      (YearlyScheduleEngine.phase3_AssignHolidayBlocks residents
        (YearlyScheduleEngine.phase2_AssignExamBlocks residents config
          (YearlyScheduleEngine.phase1_AssignMandatoryRotations residents config
            (YearlyScheduleEngine.initialGrid residents.length))))).get? bn with
  | none => simp
  | some row =>
    have hTN : YearlyScheduleEngine.gridTeamNone
        (YearlyScheduleEngine.phase4_AssignCoreNeurosurgeryRotations residents
          (YearlyScheduleEngine.phase3_AssignHolidayBlocks residents
            (YearlyScheduleEngine.phase2_AssignExamBlocks residents config
              (YearlyScheduleEngine.phase1_AssignMandatoryRotations residents config
                (YearlyScheduleEngine.initialGrid residents.length))))) :=
      YearlyScheduleEngine.gridTeamNone_phase4 residents
        (YearlyScheduleEngine.gridTeamNone_phase3 residents
          (YearlyScheduleEngine.gridTeamNone_phase2 residents config
            (YearlyScheduleEngine.gridTeamNone_phase1 residents config
              (YearlyScheduleEngine.gridTeamNone_initial residents.length))))
    have hrowTN := hTN row (List.get?_mem hg)
    simp only [Option.map_some', Option.getD_some]
    rw [YearlyScheduleEngine.countP_filterMap_id_row YearlyScheduleEngine.isRedCore,
      YearlyScheduleEngine.countP_filterMap_id_row YearlyScheduleEngine.isBlueCore]
    exact YearlyScheduleEngine.balanceBlockRow_balanced row hrowTN

def exYearly : AcademicYear :=
  YearlyScheduleEngine.generateSchedule [exResident1] [] exConfig "2025-2026"

def dummyBlock : RotationBlock :=
  { blockNumber := 0, startDate := 0, endDate := 0, assignments := [] }

/-- Witness for C7: the first block of a concrete one-resident yearly run
is balanced (one Red CORE_NSX assignment, zero Blue). -/
theorem C7_team_balance_witness :
    (exYearly.blocks.headD dummyBlock).assignments.countP
        YearlyScheduleEngine.isRedCore =
      (exYearly.blocks.headD dummyBlock).assignments.countP
        YearlyScheduleEngine.isBlueCore ∨
    (exYearly.blocks.headD dummyBlock).assignments.countP
        YearlyScheduleEngine.isRedCore =
      (exYearly.blocks.headD dummyBlock).assignments.countP
        YearlyScheduleEngine.isBlueCore + 1 :=
  C7_team_balance [exResident1] [] exConfig "2025-2026"
    (exYearly.blocks.headD dummyBlock) (by decide)

/-- Claim C10.  The duplicated `MonthlyCallScheduler.generateSchedule` of
"Monthly Call Scheduler (Backend logic).ts" returns the empty list for
every input, while the full implementation emits assignments (e.g. on
`exSchedAB`), so the two are not equivalent. -/
theorem C10_duplicate_scheduler_empty :
    (∀ (residents : List Resident) (config : AppConfiguration) (ay : AcademicYear)
        (leave : List LeaveRequest) (month year : Nat) (lvl : StaffingLevel),
      MonthlyCallSchedulerDup.generateSchedule residents config ay leave month year lvl = []) ∧
    MonthlyCallScheduler.generateSchedule exSchedAB StaffingLevel.normal ≠ [] :=
  ⟨fun _ _ _ _ _ _ _ => rfl, by decide⟩

end MediShift
